import Mathlib

/-!
A shallow embedding of the `cnHeat` Python API client (src/cnHeat.py).

Modelling conventions:
* JSON values are the inductive `Json`; numbers are carried as their Python
  decimal rendering (`Json.num "18.5"`), since the client never computes with
  them, only forwards and string-formats them.
* The HTTP transport is an oracle `Http : Request → TransportResult`; a call
  either raises a transport exception (`requests.RequestException`) or yields
  a final `Response` (status code and decoded JSON body).
* Python exceptions in play are the inductive `PyExc`.  The source's
  `except requests.RequestException` blocks catch exactly the
  `requestException` constructor; every other constructor propagates.
* Effects are the monad `CM α := Client → Http → Except PyExc α × List Request × Client`:
  result-or-exception, the list of HTTP requests issued (in order), and the
  final state of the `self` object.  The source never assigns to `self`
  outside `__init__`, which the translation realises by having no
  state-writing primitive besides the construction function.
* Numeric parameters of the Python methods (frequencies, azimuths, default
  tuning values) are passed as their Python `str` rendering; the Python
  default values (e.g. `aglHeightMeters=20`, `smGain=18.5`) are the constants
  `dflt_aglHeightMeters` etc., and are passed explicitly at call sites.
-/

namespace CnHeat

inductive Json where
  | null : Json
  | bool : Bool → Json
  | num : String → Json
  | str : String → Json
  | arr : List Json → Json
  | obj : List (String × Json) → Json

inductive PyExc where
  | requestException : String → PyExc
  | runtimeError : String → PyExc
  | typeError : String → PyExc
  | keyError : String → PyExc
  | attributeError : String → PyExc
  | nameError : String → PyExc
deriving DecidableEq, Repr

inductive Verb where
  | get | post | patch | delete
deriving DecidableEq, Repr

/-- A request body: `requests` `data=` form encoding or `json=` JSON. -/
inductive Body where
  | form : List (String × String) → Body
  | json : Json → Body

structure Request where
  verb : Verb
  url : String
  headers : List (String × String)
  params : List (String × String)
  body : Option Body

structure Response where
  status : Nat
  body : Json

inductive TransportResult where
  | exc : String → TransportResult
  | resp : Response → TransportResult

def Http := Request → TransportResult

/-- The `self` object of class `cnHeat` after `__init__` has run. -/
structure Client where
  client_id : String
  client_secret : String
  base_endpoint : String
  token : Json
  headers : List (String × String)
  sites : Json
  predictions : Json
  users : Json

/-- Python `str()` / `repr()` rendering of a decoded-JSON value, as used by the
source's f-strings (`f"Bearer {self.token}"`, error messages). -/
def quoteStr : String := (Char.ofNat 39).toString

mutual
def pyRepr : Json → String
  | Json.null => "None"
  | Json.bool true => "True"
  | Json.bool false => "False"
  | Json.num s => s
  | Json.str s => quoteStr ++ s ++ quoteStr
  | Json.arr xs => "[" ++ pyReprList xs ++ "]"
  | Json.obj fs => "\x7b" ++ pyReprFields fs ++ "\x7d"

def pyReprList : List Json → String
  | [] => ""
  | [x] => pyRepr x
  | x :: y :: xs => pyRepr x ++ ", " ++ pyReprList (y :: xs)

def pyReprFields : List (String × Json) → String
  | [] => ""
  | [(k, v)] => quoteStr ++ k ++ quoteStr ++ ": " ++ pyRepr v
  | (k, v) :: g :: fs => quoteStr ++ k ++ quoteStr ++ ": " ++ pyRepr v ++ ", " ++ pyReprFields (g :: fs)
end

def pyStr : Json → String
  | Json.null => "None"
  | Json.bool true => "True"
  | Json.bool false => "False"
  | Json.num s => s
  | Json.str s => s
  | Json.arr xs => pyRepr (Json.arr xs)
  | Json.obj fs => pyRepr (Json.obj fs)

/-- Python `d.get(key, default)` on a decoded JSON value: returns the default
when the key is missing, raises `AttributeError` when the value is not a dict. -/
def pyDictGet (j : Json) (key : String) (default : Json) : Except PyExc Json :=
  match j with
  | Json.obj fs => Except.ok ((fs.lookup key).getD default)
  | _ => Except.error (PyExc.attributeError "object has no attribute get")

/-- Python `x[key]` with a string key: dict lookup (raising `KeyError` when
missing), `TypeError` on a list (list indices must be integers) or any other
non-subscriptable value. -/
def pySubscript (j : Json) (key : String) : Except PyExc Json :=
  match j with
  | Json.obj fs =>
      match fs.lookup key with
      | some v => Except.ok v
      | none => Except.error (PyExc.keyError key)
  | Json.arr _ => Except.error (PyExc.typeError "list indices must be integers or slices, not str")
  | _ => Except.error (PyExc.typeError "object is not subscriptable")

/-- Python `for x in j`: lists iterate elements, dicts iterate keys, strings
iterate characters; other values raise `TypeError`. -/
def pyIter (j : Json) : Except PyExc (List Json) :=
  match j with
  | Json.arr xs => Except.ok xs
  | Json.obj fs => Except.ok (fs.map (fun p => Json.str p.1))
  | Json.str s => Except.ok (s.toList.map (fun ch => Json.str ch.toString))
  | _ => Except.error (PyExc.typeError "object is not iterable")

/-- Python `s.split(sep)[0]` for a one-character separator (the source only
splits on `"-"` and `"."`): the prefix of the string up to the first
occurrence of the separator, or the whole string when absent.  `split` always
returns a non-empty list, so the `[0]` never raises. -/
def pyTakeUntil (sep : Char) : List Char → List Char
  | [] => []
  | ch :: rest => if ch == sep then [] else ch :: pyTakeUntil sep rest

def pySplitFirst (s : String) (sep : Char) : String := String.mk (pyTakeUntil sep s.toList)

/-- Python `s.upper()` (the names involved are ASCII). -/
def pyUpper (s : String) : String := String.mk (s.toList.map Char.toUpper)

/-! ## The effect monad -/

def CM (α : Type) := Client → Http → Except PyExc α × List Request × Client

def CM.pure (a : α) : CM α := fun c _ => (Except.ok a, [], c)

def CM.bind (x : CM α) (f : α → CM β) : CM β := fun c http =>
  let p := x c http
  match p.1 with
  | Except.ok a =>
      let q := f a p.2.2 http
      (q.1, p.2.1 ++ q.2.1, q.2.2)
  | Except.error e => (Except.error e, p.2.1, p.2.2)

instance instMonadCM : Monad CM where
  pure := CM.pure
  bind := CM.bind

lemma CM.bind_eq (x : CM α) (f : α → CM β) : (x >>= f) = CM.bind x f := rfl

lemma CM.pure_eq (a : α) : (Pure.pure a : CM α) = CM.pure a := rfl

/-- Read `self`. -/
def getSelf : CM Client := fun c _ => (Except.ok c, [], c)

/-- Raise a Python exception. -/
def throwCM (e : PyExc) : CM α := fun c _ => (Except.error e, [], c)

/-- Run a pure Python computation that may raise. -/
def liftExc (x : Except PyExc α) : CM α := fun c _ => (x, [], c)

/-- Issue one HTTP request via the transport oracle; a transport failure
raises `requests.RequestException`. -/
def doRequest (req : Request) : CM Response := fun c http =>
  match http req with
  | TransportResult.exc m => (Except.error (PyExc.requestException m), [req], c)
  | TransportResult.resp r => (Except.ok r, [req], c)

/-- `response.raise_for_status()`: raises `requests.HTTPError` (a
`RequestException`) exactly for status codes 400–599. -/
def raiseForStatus (r : Response) : CM Unit :=
  if 400 ≤ r.status ∧ r.status < 600 then
    throwCM (PyExc.requestException ("HTTP error " ++ toString r.status))
  else
    CM.pure ()

/-- The ubiquitous `response = requests.X(...)` / `response.raise_for_status()`
pair. -/
def requestChecked (req : Request) : CM Response := do
  let r ← doRequest req
  raiseForStatus r
  CM.pure r

/-- `try: body except requests.RequestException as e: handler(str(e))`. -/
def tryReq (body : CM α) (handler : String → CM α) : CM α := fun c http =>
  let p := body c http
  match p.1 with
  | Except.error (PyExc.requestException m) =>
      let q := handler m p.2.2 http
      (q.1, p.2.1 ++ q.2.1, q.2.2)
  | _ => p

/-! ## Request builders and the generic endpoint shape -/

def getReq (self : Client) (path : String) (params : List (String × String)) : Request :=
  { verb := Verb.get, url := self.base_endpoint ++ path, headers := self.headers,
    params := params, body := none }

def bodyReq (self : Client) (v : Verb) (path : String) (data : Json) : Request :=
  { verb := v, url := self.base_endpoint ++ path, headers := self.headers,
    params := [], body := some (Body.json data) }

def bareReq (self : Client) (v : Verb) (path : String) : Request :=
  { verb := v, url := self.base_endpoint ++ path, headers := self.headers,
    params := [], body := none }

/-- `response.json().get('objects', [])`. -/
def objectsOf (body : Json) : Except PyExc Json := pyDictGet body "objects" (Json.arr [])

/-- The shape shared by every endpoint method of the source: build one request,
issue it, `raise_for_status`, post-process the decoded body, and rewrap any
`RequestException` into `RuntimeError` with the method's static message
stem. -/
def simpleMethod (mkReq : Client → Request) (post : Json → Except PyExc α)
    (pfx : String) : CM α := do
  let self ← getSelf
  tryReq
    (do
      let r ← requestChecked (mkReq self)
      liftExc (post r.body))
    (fun e => throwCM (PyExc.runtimeError (pfx ++ e)))

/-! ## Endpoint methods (one per method of class `cnHeat`)

`get_sites` is declared before the radio methods because `create_radio`
calls it; everything else follows the source's order. -/

def get_credits : CM Json :=
  simpleMethod (fun self => getReq self "credits" []) Except.ok "Failed to fetch credits: "

def get_antennas (freq : String) : CM Json :=
  simpleMethod (fun self => getReq self "antennas" [("frequency", freq)]) objectsOf
    "Failed to fetch antennas: "

def get_sites : CM Json :=
  simpleMethod (fun self => getReq self "sites" []) objectsOf "Failed to fetch sites: "

/-- The f-string of `get_site_radios`' except-block,
`f"Failed to fetch {self.sites[site_id]['name']} radios: {e}"`: the two
subscripts are evaluated first and may themselves raise. -/
def radiosFailExc (self : Client) (site_id e : String) : Except PyExc Json :=
  match pySubscript self.sites site_id with
  | Except.error ex => Except.error ex
  | Except.ok s =>
    match pySubscript s "name" with
    | Except.error ex => Except.error ex
    | Except.ok nm =>
        Except.error (PyExc.runtimeError ("Failed to fetch " ++ pyStr nm ++ " radios: " ++ e))

def get_site_radios (site_id : String) : CM Json := do
  let self ← getSelf
  tryReq
    (do
      let r ← requestChecked (getReq self ("radios/" ++ site_id) [])
      liftExc (objectsOf r.body))
    (fun e => liftExc (radiosFailExc self site_id e))

def get_radio (radio_id : String) : CM Json :=
  simpleMethod (fun self => getReq self ("radio/" ++ radio_id) []) Except.ok
    "Failed to fetch radio: "

def delete_radio (radio_id : String) : CM Json :=
  simpleMethod (fun self => bareReq self Verb.delete ("radio/" ++ radio_id)) Except.ok
    "Failed to delete radio: "

/-- Python `value == some_string` where `value` was decoded from JSON: string
equality for strings, `False` (never an exception) for every other type. -/
def pyEqStr (j : Json) (s : String) : Bool :=
  match j with
  | Json.str t => t == s
  | _ => false

/-- `for s in items: if s[key] == target: result = s[field]; break` — returns
`none` when the loop falls through without assigning. -/
def findAssign : List Json → String → String → String → Except PyExc (Option Json)
  | [], _, _, _ => Except.ok none
  | s :: rest, key, target, field =>
      match pySubscript s key with
      | Except.error e => Except.error e
      | Except.ok idv =>
          if pyEqStr idv target then
            match pySubscript s field with
            | Except.error e => Except.error e
            | Except.ok v => Except.ok (some v)
          else
            findAssign rest key target field

/-- The default-naming block of `create_radio` (source lines 167–176): the two
lookup loops followed by
`f"""AP-{antenna_name.split("-")[0]}-{azimuth}-{str(freq).split(".")[0]} GHZ.{site_name.upper()}"""`.
A loop that falls through leaves its variable unassigned, so the f-string then
raises `UnboundLocalError` (a `NameError`), `antenna_name` being referenced
first. -/
def defaultRadioName (sites antennas : Json) (site_id antennaId azimuth freq : String) :
    Except PyExc String :=
  match pyIter sites with
  | Except.error e => Except.error e
  | Except.ok sitesL =>
    match findAssign sitesL "id" site_id "name" with
    | Except.error e => Except.error e
    | Except.ok siteName? =>
      match pyIter antennas with
      | Except.error e => Except.error e
      | Except.ok antsL =>
        match findAssign antsL "id" antennaId "antenna" with
        | Except.error e => Except.error e
        | Except.ok antennaName? =>
          match antennaName? with
          | none => Except.error (PyExc.nameError "antenna_name")
          | some antennaName =>
            match antennaName with
            | Json.str aStr =>
              match siteName? with
              | none => Except.error (PyExc.nameError "site_name")
              | some siteName =>
                match siteName with
                | Json.str sStr =>
                    Except.ok ("AP-" ++ pySplitFirst aStr (Char.ofNat 45) ++ "-" ++ azimuth ++
                      "-" ++ pySplitFirst freq (Char.ofNat 46) ++ " GHZ." ++ pyUpper sStr)
                | _ => Except.error (PyExc.attributeError "object has no attribute upper")
            | _ => Except.error (PyExc.attributeError "object has no attribute split")

/-- The JSON body shared by `create_radio` and `update_radio` (field order as
inserted by the source). -/
def radioBody (antennaId name azimuth folliageTuning freq aglHeightMeters arHeightMeters
    radiusMeters smGain tilt txClearanceMeters txPowerDbm : String) : Json :=
  Json.obj [
    ("antenna", Json.str antennaId),
    ("name", Json.str name),
    ("azimuth", Json.num azimuth),
    ("foliage_tuning", Json.num folliageTuning),
    ("frequency(ghz)", Json.num freq),
    ("height(m)", Json.num aglHeightMeters),
    ("height_rooftop(m)", Json.num arHeightMeters),
    ("radius(m)", Json.num radiusMeters),
    ("sm_gain(dbi)", Json.num smGain),
    ("tilt", Json.num tilt),
    ("txclearance(m)", Json.num txClearanceMeters),
    ("txpower(dbm)", Json.num txPowerDbm) ]

/-- Default values of the optional parameters of `create_radio` and
`update_radio` in the source. -/
def dflt_aglHeightMeters : String := "20"

def dflt_folliageTuning : String := "-1"

def dflt_arHeightMeters : String := "0"

def dflt_radiusMeters : String := "12875"

def dflt_smGain : String := "18.5"

def dflt_tilt : String := "-2"

def dflt_txClearanceMeters : String := "30"

def dflt_txPowerDbm : String := "27.2"

def create_radio (site_id freq antennaId azimuth aglHeightMeters : String)
    (radioName : Option String)
    (folliageTuning arHeightMeters radiusMeters smGain tilt txClearanceMeters
     txPowerDbm : String) : CM Json := do
  let self ← getSelf
  tryReq
    (do
      let antennas ← get_antennas freq
      let sites ← get_sites
      let name ← match radioName with
        | some n => CM.pure n
        | none => liftExc (defaultRadioName sites antennas site_id antennaId azimuth freq)
      let r ← requestChecked (bodyReq self Verb.post ("radio/" ++ site_id)
        (radioBody antennaId name azimuth folliageTuning freq aglHeightMeters
          arHeightMeters radiusMeters smGain tilt txClearanceMeters txPowerDbm))
      CM.pure r.body)
    (fun e => throwCM (PyExc.runtimeError ("Failed to create radio: " ++ e)))

def update_radio (radio_id freq antennaId azimuth aglHeightMeters : String)
    (radioName : Option String)
    (folliageTuning arHeightMeters radiusMeters smGain tilt txClearanceMeters
     txPowerDbm : String) : CM Json :=
  simpleMethod
    (fun self => bodyReq self Verb.patch ("radio/" ++ radio_id)
      (radioBody antennaId (radioName.getD "No Name") azimuth folliageTuning freq
        aglHeightMeters arHeightMeters radiusMeters smGain tilt txClearanceMeters
        txPowerDbm))
    Except.ok "Failed to update radio: "

def rename_site (site_id name : String) : CM Json :=
  simpleMethod
    (fun self => bodyReq self Verb.patch ("site/" ++ site_id)
      (Json.obj [("name", Json.str name)]))
    Except.ok "Failed to update site: "

def create_site (name lat lon credit_id : String) : CM Json :=
  simpleMethod
    (fun self => bodyReq self Verb.post "sites"
      (Json.obj [("name", Json.str name), ("lat", Json.num lat), ("lon", Json.num lon),
                 ("credits", Json.str credit_id)]))
    Except.ok "Failed to create site: "

def get_predictions : CM Json :=
  simpleMethod (fun self => getReq self "predictions" []) objectsOf
    "Failed to fetch predicitions: "

def create_prediction (prediction_name : String) (radio_id_list : List String) : CM Json :=
  simpleMethod
    (fun self => bodyReq self Verb.post "predictions"
      (Json.obj [("name", Json.str prediction_name),
                 ("radio_list", Json.arr (radio_id_list.map Json.str))]))
    Except.ok "Failed to create predicition: "

def get_predictions_statuses : CM Json :=
  simpleMethod (fun self => getReq self "predictions/jobmanagement" []) objectsOf
    "Failed to fetch predicition statuses: "

def rename_prediction (prediction_id new_name : String) : CM Json :=
  simpleMethod
    (fun self => bodyReq self Verb.patch ("prediction/" ++ prediction_id ++ "/rename")
      (Json.obj [("name", Json.str new_name)]))
    Except.ok "Failed to rename predicition: "

def delete_prediction (prediction_id : String) : CM Json :=
  simpleMethod (fun self => bareReq self Verb.delete ("prediction/" ++ prediction_id))
    Except.ok "Failed to delete predicition: "

def get_users : CM Json :=
  simpleMethod (fun self => getReq self "users" []) objectsOf "Failed to get users: "

def add_user (email role : String) : CM Json :=
  simpleMethod
    (fun self => bodyReq self Verb.post "users"
      (Json.obj [("email", Json.str email), ("permission", Json.str role)]))
    Except.ok "Failed to add user: "

def delete_user (email : String) : CM Json :=
  simpleMethod
    (fun self => bodyReq self Verb.delete "user" (Json.obj [("email", Json.str email)]))
    Except.ok "Failed to delete user: "

def get_subscriptions : CM Json :=
  simpleMethod (fun self => getReq self "subscriptions" []) objectsOf
    "Failed to get subscriptions: "

def renew_subscriptions (site_id : String) : CM Json :=
  simpleMethod (fun self => bareReq self Verb.patch ("subscription/" ++ site_id ++ "/renew"))
    Except.ok "Failed to renew subscription: "

/-- Note: the source's `terminate_subscription` re-uses the message stem
`"Failed to renew subscription"` of `renew_subscriptions` (line 549). -/
def terminate_subscription (site_id : String) : CM Json :=
  simpleMethod
    (fun self => bareReq self Verb.patch ("subscription/" ++ site_id ++ "/terminate"))
    Except.ok "Failed to renew subscription: "

/-! ## Construction (`__init__` and `_authenticate`) -/

def baseURL : String := "https://internal.cnheat.cambiumnetworks.com/api/v1/"

/-- The authentication request: `requests.post(auth_url, data=data)` — a
form-encoded body and no `headers=` argument, hence no `Authorization`
header. -/
def authRequest (base cid cs : String) : Request :=
  { verb := Verb.post, url := base ++ "oauth/token", headers := [], params := [],
    body := some (Body.form [("client_id", cid), ("client_secret", cs)]) }

/-- `_authenticate`: wraps transport and HTTP-status failures in
`RuntimeError("Authentication failed: ...")`; on success returns
`response.json().get("access_token")` (which is `None` when the field is
missing, and raises `AttributeError` — uncaught — when the body is not a
dict). -/
def pyAuthenticate (base cid cs : String) (http : Http) :
    Except PyExc Json × List Request :=
  let req := authRequest base cid cs
  match http req with
  | TransportResult.exc m =>
      (Except.error (PyExc.runtimeError ("Authentication failed: " ++ m)), [req])
  | TransportResult.resp r =>
      if 400 ≤ r.status ∧ r.status < 600 then
        (Except.error (PyExc.runtimeError
          ("Authentication failed: " ++ ("HTTP error " ++ toString r.status))), [req])
      else
        (pyDictGet r.body "access_token" Json.null, [req])

/-- The state of `self` after `__init__`'s first five assignments
(`client_id`, `client_secret`, `base_endpoint`, `token`, `headers`); the
`Json.null` placeholders stand for the three attributes not yet assigned in
Python — no code reads them before assignment. -/
def initClient0 (cid cs : String) (tok : Json) : Client :=
  { client_id := cid, client_secret := cs, base_endpoint := baseURL, token := tok,
    headers := [("Authorization", "Bearer " ++ pyStr tok)],
    sites := Json.null, predictions := Json.null, users := Json.null }

/-- `cnHeat.__init__`: authenticate, build the bearer header from the token's
Python `str()` rendering, then eagerly fetch sites, predictions and users.
Any failure propagates and aborts construction. -/
def cnHeat_init (cid cs : String) (http : Http) : Except PyExc Client × List Request :=
  match pyAuthenticate baseURL cid cs http with
  | (Except.error e, tr) => (Except.error e, tr)
  | (Except.ok tok, tr) =>
    let c0 : Client := initClient0 cid cs tok
    match get_sites c0 http with
    | (Except.error e, tr1, _) => (Except.error e, tr ++ tr1)
    | (Except.ok sv, tr1, c1) =>
      let c2 : Client := { c1 with sites := sv }
      match get_predictions c2 http with
      | (Except.error e, tr2, _) => (Except.error e, tr ++ tr1 ++ tr2)
      | (Except.ok pv, tr2, c3) =>
        let c4 : Client := { c3 with predictions := pv }
        match get_users c4 http with
        | (Except.error e, tr3, _) => (Except.error e, tr ++ tr1 ++ tr2 ++ tr3)
        | (Except.ok uv, tr3, c5) =>
          (Except.ok { c5 with users := uv }, tr ++ tr1 ++ tr2 ++ tr3)

/-! ## Run lemmas -/

/-- `objectsOf` never produces a `RequestException`, so the `except` block
never fires because of it. -/
lemma objectsOf_ne_reqExc (b : Json) (m : String) :
    objectsOf b ≠ Except.error (PyExc.requestException m) := by
  cases b <;> simp [objectsOf, pyDictGet]

lemma ok_ne_reqExc (b : Json) (m : String) :
    (Except.ok b : Except PyExc Json) ≠ Except.error (PyExc.requestException m) := by
  simp

/-- Evaluation of the generic endpoint shape, by cases on the transport
outcome of its single request. -/
theorem simpleMethod_run (mkReq : Client → Request) (post : Json → Except PyExc α)
    (pfx : String)
    (hpost : ∀ b m, post b ≠ Except.error (PyExc.requestException m))
    (c : Client) (http : Http) :
    simpleMethod mkReq post pfx c http =
      (match http (mkReq c) with
       | TransportResult.exc m =>
           (Except.error (PyExc.runtimeError (pfx ++ m)), [mkReq c], c)
       | TransportResult.resp r =>
           if 400 ≤ r.status ∧ r.status < 600 then
             (Except.error (PyExc.runtimeError (pfx ++ ("HTTP error " ++ toString r.status))),
              [mkReq c], c)
           else
             (post r.body, [mkReq c], c)) := by
  cases h : http (mkReq c) with
  | exc m =>
      simp [simpleMethod, CM.bind_eq, CM.bind, getSelf, tryReq, requestChecked, doRequest,
            raiseForStatus, liftExc, throwCM, CM.pure, h]
  | resp r =>
      by_cases hs : 400 ≤ r.status ∧ r.status < 600
      · simp [simpleMethod, CM.bind_eq, CM.bind, getSelf, tryReq, requestChecked, doRequest,
              raiseForStatus, liftExc, throwCM, CM.pure, h, hs]
      · cases hp : post r.body with
        | ok v =>
            simp [simpleMethod, CM.bind_eq, CM.bind, getSelf, tryReq, requestChecked,
                  doRequest, raiseForStatus, liftExc, throwCM, CM.pure, h, hs, hp]
        | error e =>
            cases e with
            | requestException m => exact absurd hp (hpost _ _)
            | _ =>
                simp [simpleMethod, CM.bind_eq, CM.bind, getSelf, tryReq, requestChecked,
                      doRequest, raiseForStatus, liftExc, throwCM, CM.pure, h, hs, hp]

/-- Whatever the transport outcome, an endpoint of the generic shape issues
exactly its one request and leaves `self` untouched. -/
theorem simpleMethod_frame (mkReq : Client → Request) (post : Json → Except PyExc α)
    (pfx : String) (c : Client) (http : Http) :
    (simpleMethod mkReq post pfx c http).2.1 = [mkReq c] ∧
    (simpleMethod mkReq post pfx c http).2.2 = c := by
  cases h : http (mkReq c) with
  | exc m =>
      simp [simpleMethod, CM.bind_eq, CM.bind, getSelf, tryReq, requestChecked, doRequest,
            raiseForStatus, liftExc, throwCM, CM.pure, h]
  | resp r =>
      by_cases hs : 400 ≤ r.status ∧ r.status < 600
      · simp [simpleMethod, CM.bind_eq, CM.bind, getSelf, tryReq, requestChecked, doRequest,
              raiseForStatus, liftExc, throwCM, CM.pure, h, hs]
      · cases hp : post r.body with
        | ok v =>
            simp [simpleMethod, CM.bind_eq, CM.bind, getSelf, tryReq, requestChecked,
                  doRequest, raiseForStatus, liftExc, throwCM, CM.pure, h, hs, hp]
        | error e =>
            cases e <;>
              simp [simpleMethod, CM.bind_eq, CM.bind, getSelf, tryReq, requestChecked,
                    doRequest, raiseForStatus, liftExc, throwCM, CM.pure, h, hs, hp]

theorem simpleMethod_exc (mkReq : Client → Request) (post : Json → Except PyExc α)
    (pfx : String) (c : Client) (http : Http) (m : String)
    (h : http (mkReq c) = TransportResult.exc m) :
    simpleMethod mkReq post pfx c http =
      (Except.error (PyExc.runtimeError (pfx ++ m)), [mkReq c], c) := by
  simp [simpleMethod, CM.bind_eq, CM.bind, getSelf, tryReq, requestChecked, doRequest,
        raiseForStatus, liftExc, throwCM, CM.pure, h]

theorem simpleMethod_badStatus (mkReq : Client → Request) (post : Json → Except PyExc α)
    (pfx : String) (c : Client) (http : Http) (r : Response)
    (h : http (mkReq c) = TransportResult.resp r)
    (h4 : 400 ≤ r.status) (h6 : r.status < 600) :
    simpleMethod mkReq post pfx c http =
      (Except.error (PyExc.runtimeError (pfx ++ ("HTTP error " ++ toString r.status))),
       [mkReq c], c) := by
  simp [simpleMethod, CM.bind_eq, CM.bind, getSelf, tryReq, requestChecked, doRequest,
        raiseForStatus, liftExc, throwCM, CM.pure, h, h4, h6]

theorem simpleMethod_ok (mkReq : Client → Request) (post : Json → Except PyExc α)
    (pfx : String)
    (hpost : ∀ b m, post b ≠ Except.error (PyExc.requestException m))
    (c : Client) (http : Http) (r : Response)
    (h : http (mkReq c) = TransportResult.resp r)
    (hs : ¬(400 ≤ r.status ∧ r.status < 600)) :
    simpleMethod mkReq post pfx c http = (post r.body, [mkReq c], c) := by
  rw [simpleMethod_run mkReq post pfx hpost c http, h]
  simp [hs]

/-- The remote call "fails": the transport raises, or the final status is in
the 400–599 range that `raise_for_status` rejects. -/
def httpFails (http : Http) (req : Request) : Prop :=
  (∃ m, http req = TransportResult.exc m) ∨
  (∃ r, http req = TransportResult.resp r ∧ 400 ≤ r.status ∧ r.status < 600)

theorem simpleMethod_fails (mkReq : Client → Request) (post : Json → Except PyExc α)
    (pfx : String) (c : Client) (http : Http)
    (hf : httpFails http (mkReq c)) :
    ∃ msg, simpleMethod mkReq post pfx c http =
      (Except.error (PyExc.runtimeError (pfx ++ msg)), [mkReq c], c) := by
  rcases hf with ⟨m, hm⟩ | ⟨r, hr, h4, h6⟩
  · exact ⟨m, simpleMethod_exc mkReq post pfx c http m hm⟩
  · exact ⟨"HTTP error " ++ toString r.status,
      simpleMethod_badStatus mkReq post pfx c http r hr h4 h6⟩

/-! Run lemmas for `get_site_radios`, whose `except` block is bespoke. -/

theorem get_site_radios_exc (site_id : String) (c : Client) (http : Http) (m : String)
    (h : http (getReq c ("radios/" ++ site_id) []) = TransportResult.exc m) :
    get_site_radios site_id c http =
      (radiosFailExc c site_id m, [getReq c ("radios/" ++ site_id) []], c) := by
  cases hfe : radiosFailExc c site_id m <;>
    simp [get_site_radios, CM.bind_eq, CM.bind, getSelf, tryReq, requestChecked, doRequest,
          raiseForStatus, liftExc, throwCM, CM.pure, h, hfe]

theorem get_site_radios_badStatus (site_id : String) (c : Client) (http : Http)
    (r : Response)
    (h : http (getReq c ("radios/" ++ site_id) []) = TransportResult.resp r)
    (h4 : 400 ≤ r.status) (h6 : r.status < 600) :
    get_site_radios site_id c http =
      (radiosFailExc c site_id ("HTTP error " ++ toString r.status),
       [getReq c ("radios/" ++ site_id) []], c) := by
  cases hfe : radiosFailExc c site_id ("HTTP error " ++ toString r.status) <;>
    simp [get_site_radios, CM.bind_eq, CM.bind, getSelf, tryReq, requestChecked, doRequest,
          raiseForStatus, liftExc, throwCM, CM.pure, h, h4, h6, hfe]

theorem get_site_radios_ok (site_id : String) (c : Client) (http : Http) (r : Response)
    (h : http (getReq c ("radios/" ++ site_id) []) = TransportResult.resp r)
    (hs : ¬(400 ≤ r.status ∧ r.status < 600)) :
    get_site_radios site_id c http =
      (objectsOf r.body, [getReq c ("radios/" ++ site_id) []], c) := by
  cases hp : objectsOf r.body with
  | ok v =>
      simp [get_site_radios, CM.bind_eq, CM.bind, getSelf, tryReq, requestChecked, doRequest,
            raiseForStatus, liftExc, throwCM, CM.pure, h, hs, hp]
  | error e =>
      cases e with
      | requestException m => exact absurd hp (objectsOf_ne_reqExc _ _)
      | _ =>
          simp [get_site_radios, CM.bind_eq, CM.bind, getSelf, tryReq, requestChecked,
                doRequest, raiseForStatus, liftExc, throwCM, CM.pure, h, hs, hp]

theorem get_site_radios_frame (site_id : String) (c : Client) (http : Http) :
    (get_site_radios site_id c http).2.1 = [getReq c ("radios/" ++ site_id) []] ∧
    (get_site_radios site_id c http).2.2 = c := by
  cases h : http (getReq c ("radios/" ++ site_id) []) with
  | exc m => rw [get_site_radios_exc site_id c http m h]; exact ⟨rfl, rfl⟩
  | resp r =>
      by_cases hs : 400 ≤ r.status ∧ r.status < 600
      · rw [get_site_radios_badStatus site_id c http r h hs.1 hs.2]; exact ⟨rfl, rfl⟩
      · rw [get_site_radios_ok site_id c http r h hs]; exact ⟨rfl, rfl⟩

/-- Binding `getSelf` first, as every method does, just hands the current
client to the continuation. -/
lemma bind_getSelf (f : Client → CM α) (c : Client) (http : Http) :
    (getSelf >>= f) c http = f c c http := rfl

/-! ## No effect writes to `self`

The source assigns to `self` only inside `__init__`; accordingly the
translation has no state-writing primitive, and every combinator preserves the
client.  `preservesClient` makes that a provable statement per method. -/

def preservesClient (x : CM α) : Prop := ∀ c http, (x c http).2.2 = c

lemma preservesClient_pure (a : α) : preservesClient (CM.pure a) := fun _ _ => rfl

lemma preservesClient_liftExc (x : Except PyExc α) : preservesClient (liftExc x) :=
  fun _ _ => rfl

lemma preservesClient_throwCM (e : PyExc) : preservesClient (throwCM e : CM α) :=
  fun _ _ => rfl

lemma preservesClient_getSelf : preservesClient getSelf := fun _ _ => rfl

lemma preservesClient_doRequest (req : Request) : preservesClient (doRequest req) := by
  intro c http
  unfold doRequest
  cases http req <;> rfl

lemma preservesClient_bind {x : CM α} {f : α → CM β}
    (hx : preservesClient x) (hf : ∀ a, preservesClient (f a)) :
    preservesClient (x >>= f) := by
  intro c http
  show (CM.bind x f c http).2.2 = c
  unfold CM.bind
  cases hpx : (x c http).1 with
  | ok a =>
      simp only [hpx]
      rw [hx c http]
      exact hf a c http
  | error e =>
      simp only [hpx]
      exact hx c http

lemma preservesClient_raiseForStatus (r : Response) : preservesClient (raiseForStatus r) := by
  intro c http
  unfold raiseForStatus
  split <;> rfl

lemma preservesClient_requestChecked (req : Request) : preservesClient (requestChecked req) := by
  apply preservesClient_bind (preservesClient_doRequest req)
  intro r
  exact preservesClient_bind (preservesClient_raiseForStatus r) fun _ => preservesClient_pure r

lemma preservesClient_tryReq {body : CM α} {handler : String → CM α}
    (hb : preservesClient body) (hh : ∀ m, preservesClient (handler m)) :
    preservesClient (tryReq body handler) := by
  intro c http
  unfold tryReq
  cases hp : (body c http).1 with
  | ok a => simp only [hp]; exact hb c http
  | error e =>
      cases e <;> simp only [hp]
      case requestException m =>
        rw [hb c http]
        exact hh m c http
      all_goals exact hb c http

lemma preservesClient_simpleMethod (mkReq : Client → Request)
    (post : Json → Except PyExc α) (pfx : String) :
    preservesClient (simpleMethod mkReq post pfx) :=
  fun c http => (simpleMethod_frame mkReq post pfx c http).2

lemma preservesClient_create_radio (site_id freq antennaId azimuth aglHeightMeters : String)
    (radioName : Option String)
    (folliageTuning arHeightMeters radiusMeters smGain tilt txClearanceMeters
     txPowerDbm : String) :
    preservesClient (create_radio site_id freq antennaId azimuth aglHeightMeters radioName
      folliageTuning arHeightMeters radiusMeters smGain tilt txClearanceMeters
      txPowerDbm) := by
  unfold create_radio
  apply preservesClient_bind preservesClient_getSelf
  intro self
  apply preservesClient_tryReq
  · apply preservesClient_bind (preservesClient_simpleMethod _ _ _)
    intro antennas
    apply preservesClient_bind (preservesClient_simpleMethod _ _ _)
    intro sites
    cases radioName with
    | some n =>
        dsimp only
        apply preservesClient_bind (preservesClient_pure n)
        intro y
        apply preservesClient_bind (preservesClient_requestChecked _)
        intro r
        exact preservesClient_pure _
    | none =>
        dsimp only
        apply preservesClient_bind (preservesClient_liftExc _)
        intro y
        apply preservesClient_bind (preservesClient_requestChecked _)
        intro r
        exact preservesClient_pure _
  · intro m
    exact preservesClient_throwCM _

lemma preservesClient_get_site_radios (site_id : String) :
    preservesClient (get_site_radios site_id) :=
  fun c http => (get_site_radios_frame site_id c http).2

/-! ## Evaluating `create_radio` -/

lemma get_antennas_run_ok (freq : String) (c : Client) (http : Http) (r : Response) (v : Json)
    (h : http (getReq c "antennas" [("frequency", freq)]) = TransportResult.resp r)
    (hs : ¬(400 ≤ r.status ∧ r.status < 600))
    (ho : objectsOf r.body = Except.ok v) :
    get_antennas freq c http = (Except.ok v, [getReq c "antennas" [("frequency", freq)]], c) := by
  show simpleMethod (fun self => getReq self "antennas" [("frequency", freq)]) objectsOf
    "Failed to fetch antennas: " c http = _
  rw [simpleMethod_ok _ objectsOf _ (fun b m => objectsOf_ne_reqExc b m) c http r h hs, ho]

lemma get_sites_run_ok (c : Client) (http : Http) (r : Response) (v : Json)
    (h : http (getReq c "sites" []) = TransportResult.resp r)
    (hs : ¬(400 ≤ r.status ∧ r.status < 600))
    (ho : objectsOf r.body = Except.ok v) :
    get_sites c http = (Except.ok v, [getReq c "sites" []], c) := by
  show simpleMethod (fun self => getReq self "sites" []) objectsOf
    "Failed to fetch sites: " c http = _
  rw [simpleMethod_ok _ objectsOf _ (fun b m => objectsOf_ne_reqExc b m) c http r h hs, ho]

/-- What happens from `create_radio`'s POST onwards, once both eager fetches
returned object lists and a radio name is in hand. -/
def createPostOutcome (c : Client) (http : Http) (site_id : String) (data : Json)
    (preTrace : List Request) : Except PyExc Json × List Request × Client :=
  match http (bodyReq c Verb.post ("radio/" ++ site_id) data) with
  | TransportResult.exc m =>
      (Except.error (PyExc.runtimeError ("Failed to create radio: " ++ m)),
       preTrace ++ [bodyReq c Verb.post ("radio/" ++ site_id) data], c)
  | TransportResult.resp r =>
      if 400 ≤ r.status ∧ r.status < 600 then
        (Except.error (PyExc.runtimeError
          ("Failed to create radio: " ++ ("HTTP error " ++ toString r.status))),
         preTrace ++ [bodyReq c Verb.post ("radio/" ++ site_id) data], c)
      else
        (Except.ok r.body,
         preTrace ++ [bodyReq c Verb.post ("radio/" ++ site_id) data], c)

theorem create_radio_eval_named (c : Client) (http : Http)
    (site_id freq antennaId azimuth agl nm ft ar rad sm tl txc txp : String)
    (rA rS : Response) (antsV sitesV : Json)
    (hA : http (getReq c "antennas" [("frequency", freq)]) = TransportResult.resp rA)
    (hsA : ¬(400 ≤ rA.status ∧ rA.status < 600))
    (hoA : objectsOf rA.body = Except.ok antsV)
    (hS : http (getReq c "sites" []) = TransportResult.resp rS)
    (hsS : ¬(400 ≤ rS.status ∧ rS.status < 600))
    (hoS : objectsOf rS.body = Except.ok sitesV) :
    create_radio site_id freq antennaId azimuth agl (some nm) ft ar rad sm tl txc txp c http =
      createPostOutcome c http site_id
        (radioBody antennaId nm azimuth ft freq agl ar rad sm tl txc txp)
        [getReq c "antennas" [("frequency", freq)], getReq c "sites" []] := by
  have hGA := get_antennas_run_ok freq c http rA antsV hA hsA hoA
  have hGS := get_sites_run_ok c http rS sitesV hS hsS hoS
  cases hP : http (bodyReq c Verb.post ("radio/" ++ site_id)
      (radioBody antennaId nm azimuth ft freq agl ar rad sm tl txc txp)) with
  | exc m =>
      simp [create_radio, createPostOutcome, tryReq, CM.bind_eq, CM.bind, getSelf,
            requestChecked, doRequest, raiseForStatus, liftExc, throwCM, CM.pure,
            hGA, hGS, hP]
  | resp r =>
      by_cases hs : 400 ≤ r.status ∧ r.status < 600 <;>
        simp [create_radio, createPostOutcome, tryReq, CM.bind_eq, CM.bind, getSelf,
              requestChecked, doRequest, raiseForStatus, liftExc, throwCM, CM.pure,
              hGA, hGS, hP, hs]

theorem create_radio_eval_default (c : Client) (http : Http)
    (site_id freq antennaId azimuth agl ft ar rad sm tl txc txp : String)
    (rA rS : Response) (antsV sitesV : Json) (nm : String)
    (hA : http (getReq c "antennas" [("frequency", freq)]) = TransportResult.resp rA)
    (hsA : ¬(400 ≤ rA.status ∧ rA.status < 600))
    (hoA : objectsOf rA.body = Except.ok antsV)
    (hS : http (getReq c "sites" []) = TransportResult.resp rS)
    (hsS : ¬(400 ≤ rS.status ∧ rS.status < 600))
    (hoS : objectsOf rS.body = Except.ok sitesV)
    (hD : defaultRadioName sitesV antsV site_id antennaId azimuth freq = Except.ok nm) :
    create_radio site_id freq antennaId azimuth agl none ft ar rad sm tl txc txp c http =
      createPostOutcome c http site_id
        (radioBody antennaId nm azimuth ft freq agl ar rad sm tl txc txp)
        [getReq c "antennas" [("frequency", freq)], getReq c "sites" []] := by
  have hGA := get_antennas_run_ok freq c http rA antsV hA hsA hoA
  have hGS := get_sites_run_ok c http rS sitesV hS hsS hoS
  cases hP : http (bodyReq c Verb.post ("radio/" ++ site_id)
      (radioBody antennaId nm azimuth ft freq agl ar rad sm tl txc txp)) with
  | exc m =>
      simp [create_radio, createPostOutcome, tryReq, CM.bind_eq, CM.bind, getSelf,
            requestChecked, doRequest, raiseForStatus, liftExc, throwCM, CM.pure,
            hGA, hGS, hD, hP]
  | resp r =>
      by_cases hs : 400 ≤ r.status ∧ r.status < 600 <;>
        simp [create_radio, createPostOutcome, tryReq, CM.bind_eq, CM.bind, getSelf,
              requestChecked, doRequest, raiseForStatus, liftExc, throwCM, CM.pure,
              hGA, hGS, hD, hP, hs]

/-- When the default-naming block raises `NameError` (an id was absent from a
fetched list), no POST is issued and the error escapes `create_radio`
unwrapped: `except requests.RequestException` does not catch `NameError`. -/
theorem create_radio_eval_nameErr (c : Client) (http : Http)
    (site_id freq antennaId azimuth agl ft ar rad sm tl txc txp : String)
    (rA rS : Response) (antsV sitesV : Json) (s : String)
    (hA : http (getReq c "antennas" [("frequency", freq)]) = TransportResult.resp rA)
    (hsA : ¬(400 ≤ rA.status ∧ rA.status < 600))
    (hoA : objectsOf rA.body = Except.ok antsV)
    (hS : http (getReq c "sites" []) = TransportResult.resp rS)
    (hsS : ¬(400 ≤ rS.status ∧ rS.status < 600))
    (hoS : objectsOf rS.body = Except.ok sitesV)
    (hD : defaultRadioName sitesV antsV site_id antennaId azimuth freq =
      Except.error (PyExc.nameError s)) :
    create_radio site_id freq antennaId azimuth agl none ft ar rad sm tl txc txp c http =
      (Except.error (PyExc.nameError s),
       [getReq c "antennas" [("frequency", freq)], getReq c "sites" []], c) := by
  have hGA := get_antennas_run_ok freq c http rA antsV hA hsA hoA
  have hGS := get_sites_run_ok c http rS sitesV hS hsS hoS
  simp [create_radio, tryReq, CM.bind_eq, CM.bind, getSelf, requestChecked, doRequest,
        raiseForStatus, liftExc, throwCM, CM.pure, hGA, hGS, hD]

/-! ## The lookup loops -/

lemma findAssign_none (L : List Json) (key target field : String)
    (h : ∀ x ∈ L, ∃ fs v, x = Json.obj fs ∧ fs.lookup key = some v ∧ pyEqStr v target = false) :
    findAssign L key target field = Except.ok none := by
  induction L with
  | nil => rfl
  | cons s rest ih =>
      obtain ⟨fs, v, hx, hl, hne⟩ := h s (List.mem_cons_self s rest)
      subst hx
      simp [findAssign, pySubscript, hl, hne]
      exact ih fun x hx => h x (List.mem_cons_of_mem _ hx)

lemma findAssign_found (pre rest : List Json) (fs : List (String × Json))
    (key target field : String) (w : Json)
    (hpre : ∀ x ∈ pre, ∃ gs v, x = Json.obj gs ∧ gs.lookup key = some v ∧
      pyEqStr v target = false)
    (hid : fs.lookup key = some (Json.str target))
    (hw : fs.lookup field = some w) :
    findAssign (pre ++ Json.obj fs :: rest) key target field = Except.ok (some w) := by
  induction pre with
  | nil => simp [findAssign, pySubscript, pyEqStr, hid, hw]
  | cons s pre ih =>
      obtain ⟨gs, v, hx, hl, hne⟩ := hpre s (List.mem_cons_self s pre)
      subst hx
      simp [findAssign, pySubscript, hl, hne]
      exact ih fun x hx => hpre x (List.mem_cons_of_mem _ hx)

/-- Successful default naming: both ids are found (each behind only
well-formed non-matching entries), with string name fields. -/
lemma defaultRadioName_eval (sitesL antsL : List Json) (site_id antennaId azimuth freq : String)
    (sN aN : String)
    (h1 : findAssign sitesL "id" site_id "name" = Except.ok (some (Json.str sN)))
    (h2 : findAssign antsL "id" antennaId "antenna" = Except.ok (some (Json.str aN))) :
    defaultRadioName (Json.arr sitesL) (Json.arr antsL) site_id antennaId azimuth freq =
      Except.ok ("AP-" ++ pySplitFirst aN (Char.ofNat 45) ++ "-" ++ azimuth ++ "-" ++
        pySplitFirst freq (Char.ofNat 46) ++ " GHZ." ++ pyUpper sN) := by
  simp [defaultRadioName, pyIter, h1, h2]

/-- The antenna lookup falls through (whatever the site lookup produced):
`antenna_name` is referenced first by the f-string, so the block raises
`NameError` for `antenna_name`. -/
lemma defaultRadioName_noAntenna (sitesL antsL : List Json)
    (site_id antennaId azimuth freq : String) (siteRes : Option Json)
    (h1 : findAssign sitesL "id" site_id "name" = Except.ok siteRes)
    (h2 : findAssign antsL "id" antennaId "antenna" = Except.ok none) :
    defaultRadioName (Json.arr sitesL) (Json.arr antsL) site_id antennaId azimuth freq =
      Except.error (PyExc.nameError "antenna_name") := by
  simp [defaultRadioName, pyIter, h1, h2]

/-- The site lookup falls through while the antenna lookup finds a string
name: the f-string evaluates `antenna_name.split` and then raises `NameError`
for `site_name`. -/
lemma defaultRadioName_noSite (sitesL antsL : List Json)
    (site_id antennaId azimuth freq : String) (aN : String)
    (h1 : findAssign sitesL "id" site_id "name" = Except.ok none)
    (h2 : findAssign antsL "id" antennaId "antenna" = Except.ok (some (Json.str aN))) :
    defaultRadioName (Json.arr sitesL) (Json.arr antsL) site_id antennaId azimuth freq =
      Except.error (PyExc.nameError "site_name") := by
  simp [defaultRadioName, pyIter, h1, h2]

/-! ## Evaluating construction -/

/-- Shape of the three eager fetch requests of `__init__`, given the token
obtained by `_authenticate`. -/
def initReq (tok : Json) (path : String) : Request :=
  { verb := Verb.get, url := baseURL ++ path,
    headers := [("Authorization", "Bearer " ++ pyStr tok)], params := [], body := none }

lemma getReq_initClient0 (cid cs : String) (tok : Json) (path : String) :
    getReq (initClient0 cid cs tok) path [] = initReq tok path := rfl

lemma getReq_initUpd1 (cid cs : String) (tok sv : Json) (path : String) :
    getReq { initClient0 cid cs tok with sites := sv } path [] = initReq tok path := rfl

lemma getReq_initUpd2 (cid cs : String) (tok sv pv : Json) (path : String) :
    getReq { initClient0 cid cs tok with sites := sv, predictions := pv } path []
      = initReq tok path := rfl

lemma pyAuthenticate_ok (cid cs : String) (http : Http) (rAuth : Response) (tok : Json)
    (hAuth : http (authRequest baseURL cid cs) = TransportResult.resp rAuth)
    (hsAuth : ¬(400 ≤ rAuth.status ∧ rAuth.status < 600))
    (htok : pyDictGet rAuth.body "access_token" Json.null = Except.ok tok) :
    pyAuthenticate baseURL cid cs http = (Except.ok tok, [authRequest baseURL cid cs]) := by
  simp [pyAuthenticate, hAuth, hsAuth, htok]

lemma pyAuthenticate_fails (cid cs : String) (http : Http)
    (hf : httpFails http (authRequest baseURL cid cs)) :
    ∃ m, pyAuthenticate baseURL cid cs http =
      (Except.error (PyExc.runtimeError ("Authentication failed: " ++ m)),
       [authRequest baseURL cid cs]) := by
  rcases hf with ⟨m, hm⟩ | ⟨r, hr, h4, h6⟩
  · exact ⟨m, by simp [pyAuthenticate, hm]⟩
  · exact ⟨"HTTP error " ++ toString r.status, by simp [pyAuthenticate, hr, h4, h6]⟩

/-- Authentication failure aborts construction after the one auth request. -/
lemma cnHeat_init_authFail (cid cs : String) (http : Http)
    (hf : httpFails http (authRequest baseURL cid cs)) :
    ∃ m, cnHeat_init cid cs http =
      (Except.error (PyExc.runtimeError ("Authentication failed: " ++ m)),
       [authRequest baseURL cid cs]) := by
  obtain ⟨m, hm⟩ := pyAuthenticate_fails cid cs http hf
  exact ⟨m, by simp [cnHeat_init, hm]⟩

/-- Fully successful construction: one auth call then exactly the three
fetches, in order, and the snapshots are exactly the fetched `objects`
lists. -/
lemma cnHeat_init_ok (cid cs : String) (http : Http) (rAuth rS rP rU : Response)
    (tok sv pv uv : Json)
    (hAuth : http (authRequest baseURL cid cs) = TransportResult.resp rAuth)
    (hsAuth : ¬(400 ≤ rAuth.status ∧ rAuth.status < 600))
    (htok : pyDictGet rAuth.body "access_token" Json.null = Except.ok tok)
    (hS : http (initReq tok "sites") = TransportResult.resp rS)
    (hsS : ¬(400 ≤ rS.status ∧ rS.status < 600))
    (hoS : objectsOf rS.body = Except.ok sv)
    (hP : http (initReq tok "predictions") = TransportResult.resp rP)
    (hsP : ¬(400 ≤ rP.status ∧ rP.status < 600))
    (hoP : objectsOf rP.body = Except.ok pv)
    (hU : http (initReq tok "users") = TransportResult.resp rU)
    (hsU : ¬(400 ≤ rU.status ∧ rU.status < 600))
    (hoU : objectsOf rU.body = Except.ok uv) :
    cnHeat_init cid cs http =
      (Except.ok
        { client_id := cid, client_secret := cs, base_endpoint := baseURL, token := tok,
          headers := [("Authorization", "Bearer " ++ pyStr tok)],
          sites := sv, predictions := pv, users := uv },
       [authRequest baseURL cid cs, initReq tok "sites", initReq tok "predictions",
        initReq tok "users"]) := by
  have h1 := pyAuthenticate_ok cid cs http rAuth tok hAuth hsAuth htok
  have h2 := get_sites_run_ok (initClient0 cid cs tok) http rS sv hS hsS hoS
  have h3 : get_predictions { initClient0 cid cs tok with sites := sv } http =
      (Except.ok pv, [initReq tok "predictions"], { initClient0 cid cs tok with sites := sv }) := by
    show simpleMethod (fun self => getReq self "predictions" []) objectsOf
      "Failed to fetch predicitions: " _ http = _
    rw [simpleMethod_ok _ objectsOf _ (fun b m => objectsOf_ne_reqExc b m) _ http rP hP hsP, hoP]
    rfl
  have h4 : get_users { initClient0 cid cs tok with sites := sv, predictions := pv } http =
      (Except.ok uv, [initReq tok "users"],
       { initClient0 cid cs tok with sites := sv, predictions := pv }) := by
    show simpleMethod (fun self => getReq self "users" []) objectsOf
      "Failed to get users: " _ http = _
    rw [simpleMethod_ok _ objectsOf _ (fun b m => objectsOf_ne_reqExc b m) _ http rU hU hsU, hoU]
    rfl
  simp only [cnHeat_init, h1, h2, h3, h4]
  simp [initClient0, getReq, initReq]

/-- A failing sites fetch aborts construction entirely, wrapped in the sites
fetch error message. -/
lemma cnHeat_init_sitesFail (cid cs : String) (http : Http) (rAuth : Response) (tok : Json)
    (hAuth : http (authRequest baseURL cid cs) = TransportResult.resp rAuth)
    (hsAuth : ¬(400 ≤ rAuth.status ∧ rAuth.status < 600))
    (htok : pyDictGet rAuth.body "access_token" Json.null = Except.ok tok)
    (hfS : httpFails http (initReq tok "sites")) :
    ∃ m, cnHeat_init cid cs http =
      (Except.error (PyExc.runtimeError ("Failed to fetch sites: " ++ m)),
       [authRequest baseURL cid cs, initReq tok "sites"]) := by
  have h1 := pyAuthenticate_ok cid cs http rAuth tok hAuth hsAuth htok
  obtain ⟨m, hm⟩ := simpleMethod_fails (fun self => getReq self "sites" []) objectsOf
    "Failed to fetch sites: " (initClient0 cid cs tok) http hfS
  have h2 : get_sites (initClient0 cid cs tok) http =
      (Except.error (PyExc.runtimeError ("Failed to fetch sites: " ++ m)),
       [initReq tok "sites"], initClient0 cid cs tok) := hm
  exact ⟨m, by simp [cnHeat_init, h1, h2, getReq_initClient0]⟩

/-- A failing predictions fetch (after successful auth and sites) aborts
construction entirely. -/
lemma cnHeat_init_predictionsFail (cid cs : String) (http : Http) (rAuth rS : Response)
    (tok sv : Json)
    (hAuth : http (authRequest baseURL cid cs) = TransportResult.resp rAuth)
    (hsAuth : ¬(400 ≤ rAuth.status ∧ rAuth.status < 600))
    (htok : pyDictGet rAuth.body "access_token" Json.null = Except.ok tok)
    (hS : http (initReq tok "sites") = TransportResult.resp rS)
    (hsS : ¬(400 ≤ rS.status ∧ rS.status < 600))
    (hoS : objectsOf rS.body = Except.ok sv)
    (hfP : httpFails http (initReq tok "predictions")) :
    ∃ m, cnHeat_init cid cs http =
      (Except.error (PyExc.runtimeError ("Failed to fetch predicitions: " ++ m)),
       [authRequest baseURL cid cs, initReq tok "sites", initReq tok "predictions"]) := by
  have h1 := pyAuthenticate_ok cid cs http rAuth tok hAuth hsAuth htok
  have h2 := get_sites_run_ok (initClient0 cid cs tok) http rS sv hS hsS hoS
  obtain ⟨m, hm⟩ := simpleMethod_fails (fun self => getReq self "predictions" []) objectsOf
    "Failed to fetch predicitions: " { initClient0 cid cs tok with sites := sv } http hfP
  have h3 : get_predictions { initClient0 cid cs tok with sites := sv } http =
      (Except.error (PyExc.runtimeError ("Failed to fetch predicitions: " ++ m)),
       [initReq tok "predictions"], { initClient0 cid cs tok with sites := sv }) := hm
  exact ⟨m, by simp [cnHeat_init, h1, h2, h3, getReq_initClient0, getReq_initUpd1]⟩

/-- A failing users fetch (after successful auth, sites and predictions)
aborts construction entirely. -/
lemma cnHeat_init_usersFail (cid cs : String) (http : Http) (rAuth rS rP : Response)
    (tok sv pv : Json)
    (hAuth : http (authRequest baseURL cid cs) = TransportResult.resp rAuth)
    (hsAuth : ¬(400 ≤ rAuth.status ∧ rAuth.status < 600))
    (htok : pyDictGet rAuth.body "access_token" Json.null = Except.ok tok)
    (hS : http (initReq tok "sites") = TransportResult.resp rS)
    (hsS : ¬(400 ≤ rS.status ∧ rS.status < 600))
    (hoS : objectsOf rS.body = Except.ok sv)
    (hP : http (initReq tok "predictions") = TransportResult.resp rP)
    (hsP : ¬(400 ≤ rP.status ∧ rP.status < 600))
    (hoP : objectsOf rP.body = Except.ok pv)
    (hfU : httpFails http (initReq tok "users")) :
    ∃ m, cnHeat_init cid cs http =
      (Except.error (PyExc.runtimeError ("Failed to get users: " ++ m)),
       [authRequest baseURL cid cs, initReq tok "sites", initReq tok "predictions",
        initReq tok "users"]) := by
  have h1 := pyAuthenticate_ok cid cs http rAuth tok hAuth hsAuth htok
  have h2 := get_sites_run_ok (initClient0 cid cs tok) http rS sv hS hsS hoS
  have h3 : get_predictions { initClient0 cid cs tok with sites := sv } http =
      (Except.ok pv, [initReq tok "predictions"], { initClient0 cid cs tok with sites := sv }) := by
    show simpleMethod (fun self => getReq self "predictions" []) objectsOf
      "Failed to fetch predicitions: " _ http = _
    rw [simpleMethod_ok _ objectsOf _ (fun b m => objectsOf_ne_reqExc b m) _ http rP hP hsP, hoP]
    rfl
  obtain ⟨m, hm⟩ := simpleMethod_fails (fun self => getReq self "users" []) objectsOf
    "Failed to get users: " { initClient0 cid cs tok with sites := sv, predictions := pv }
    http hfU
  have h4 : get_users { initClient0 cid cs tok with sites := sv, predictions := pv } http =
      (Except.error (PyExc.runtimeError ("Failed to get users: " ++ m)),
       [initReq tok "users"],
       { initClient0 cid cs tok with sites := sv, predictions := pv }) := hm
  exact ⟨m, by simp [cnHeat_init, h1, h2, h3, h4, getReq_initClient0, getReq_initUpd1, getReq_initUpd2]⟩

/-! ## Trace-shape helpers -/

lemma createPostOutcome_trace (c : Client) (http : Http) (site_id : String) (data : Json)
    (preTrace : List Request) :
    (createPostOutcome c http site_id data preTrace).2.1 =
      preTrace ++ [bodyReq c Verb.post ("radio/" ++ site_id) data] := by
  unfold createPostOutcome
  cases http (bodyReq c Verb.post ("radio/" ++ site_id) data) with
  | exc m => rfl
  | resp r =>
      by_cases hs : 400 ≤ r.status ∧ r.status < 600 <;> simp [hs]

lemma objectsOf_found (fs : List (String × Json)) (v : Json)
    (h : fs.lookup "objects" = some v) :
    objectsOf (Json.obj fs) = Except.ok v := by
  simp [objectsOf, pyDictGet, h]

lemma objectsOf_missing (fs : List (String × Json))
    (h : fs.lookup "objects" = none) :
    objectsOf (Json.obj fs) = Except.ok (Json.arr []) := by
  simp [objectsOf, pyDictGet, h]

lemma requestChecked_trace (req : Request) (c : Client) (http : Http) :
    (requestChecked req c http).2.1 = [req] := by
  cases h : http req with
  | exc m =>
      simp [requestChecked, CM.bind_eq, CM.bind, doRequest, raiseForStatus, throwCM,
            CM.pure, h]
  | resp r =>
      by_cases hs : 400 ≤ r.status ∧ r.status < 600 <;>
        simp [requestChecked, CM.bind_eq, CM.bind, doRequest, raiseForStatus, throwCM,
              CM.pure, h, hs]

lemma mem_trace_bind {x : CM α} {f : α → CM β} (hx : preservesClient x)
    (c : Client) (http : Http) (r : Request)
    (hr : r ∈ ((x >>= f) c http).2.1) :
    r ∈ (x c http).2.1 ∨ ∃ a, r ∈ (f a c http).2.1 := by
  rw [CM.bind_eq] at hr
  unfold CM.bind at hr
  cases hpx : (x c http).1 with
  | ok a =>
      simp only [hpx] at hr
      rw [hx c http] at hr
      rcases List.mem_append.1 hr with h | h
      · exact Or.inl h
      · exact Or.inr ⟨a, h⟩
  | error e =>
      simp only [hpx] at hr
      exact Or.inl hr

lemma mem_trace_tryReq {body : CM α} {handler : String → CM α} (hb : preservesClient body)
    (c : Client) (http : Http) (r : Request)
    (hr : r ∈ (tryReq body handler c http).2.1) :
    r ∈ (body c http).2.1 ∨ ∃ m, r ∈ (handler m c http).2.1 := by
  unfold tryReq at hr
  cases hp : (body c http).1 with
  | ok a =>
      simp only [hp] at hr
      exact Or.inl hr
  | error e =>
      cases e <;> simp only [hp] at hr
      case requestException m =>
        rw [hb c http] at hr
        rcases List.mem_append.1 hr with h | h
        · exact Or.inl h
        · exact Or.inr ⟨m, h⟩
      all_goals exact Or.inl hr

/-- A `tryReq` whose handler immediately raises issues no requests of its
own, so trace membership comes from the body alone. -/
lemma mem_trace_tryReq_throw {body : CM α} {mkE : String → PyExc}
    (c : Client) (http : Http) (r : Request)
    (hr : r ∈ (tryReq body (fun m => throwCM (mkE m)) c http).2.1) :
    r ∈ (body c http).2.1 := by
  unfold tryReq at hr
  cases hp : (body c http).1 with
  | ok a =>
      simp only [hp] at hr
      exact hr
  | error e =>
      cases e <;> simp only [hp] at hr
      case requestException m =>
        simpa [throwCM] using hr
      all_goals exact hr

/-- Every request `create_radio` can issue is one of: its antennas GET, its
sites GET, or its POST (with some name in the body). -/
lemma create_radio_trace_shape (site_id freq antennaId azimuth agl : String)
    (radioName : Option String) (ft ar rad sm tl txc txp : String)
    (c : Client) (http : Http) (r : Request)
    (hr : r ∈ (create_radio site_id freq antennaId azimuth agl radioName
      ft ar rad sm tl txc txp c http).2.1) :
    r = getReq c "antennas" [("frequency", freq)] ∨ r = getReq c "sites" [] ∨
    ∃ nm, r = bodyReq c Verb.post ("radio/" ++ site_id)
      (radioBody antennaId nm azimuth ft freq agl ar rad sm tl txc txp) := by
  cases radioName with
  | some n =>
      unfold create_radio at hr
      rw [bind_getSelf] at hr
      have h := mem_trace_tryReq_throw c http r hr
      rcases mem_trace_bind (preservesClient_simpleMethod _ _ _) c http r h with h1 | ⟨ants, h2⟩
      · rw [(simpleMethod_frame _ _ _ c http).1] at h1
        simp at h1
        exact Or.inl h1
      · rcases mem_trace_bind (preservesClient_simpleMethod _ _ _) c http r h2 with h3 | ⟨sites, h4⟩
        · rw [(simpleMethod_frame _ _ _ c http).1] at h3
          simp at h3
          exact Or.inr (Or.inl h3)
        · dsimp only at h4
          rcases mem_trace_bind (preservesClient_pure n) c http r h4 with h5 | ⟨nm, h6⟩
          · simp [CM.pure] at h5
          · rcases mem_trace_bind (preservesClient_requestChecked _) c http r h6 with h7 | ⟨rr, h8⟩
            · rw [requestChecked_trace] at h7
              simp at h7
              exact Or.inr (Or.inr ⟨nm, h7⟩)
            · simp [CM.pure] at h8
  | none =>
      unfold create_radio at hr
      rw [bind_getSelf] at hr
      have h := mem_trace_tryReq_throw c http r hr
      rcases mem_trace_bind (preservesClient_simpleMethod _ _ _) c http r h with h1 | ⟨ants, h2⟩
      · rw [(simpleMethod_frame _ _ _ c http).1] at h1
        simp at h1
        exact Or.inl h1
      · rcases mem_trace_bind (preservesClient_simpleMethod _ _ _) c http r h2 with h3 | ⟨sites, h4⟩
        · rw [(simpleMethod_frame _ _ _ c http).1] at h3
          simp at h3
          exact Or.inr (Or.inl h3)
        · dsimp only at h4
          rcases mem_trace_bind (preservesClient_liftExc _) c http r h4 with h5 | ⟨nm, h6⟩
          · simp [liftExc] at h5
          · rcases mem_trace_bind (preservesClient_requestChecked _) c http r h6 with h7 | ⟨rr, h8⟩
            · rw [requestChecked_trace] at h7
              simp at h7
              exact Or.inr (Or.inr ⟨nm, h7⟩)
            · simp [CM.pure] at h8

/-! ## List-occurrence predicates for the naming lookups -/

/-- `target` does not occur as the `"id"` of any entry of a fetched list;
each entry is a well-formed object carrying an `"id"`. -/
def idMissing (L : List Json) (target : String) : Prop :=
  ∀ x ∈ L, ∃ fs v, x = Json.obj fs ∧ fs.lookup "id" = some v ∧ pyEqStr v target = false

/-- `target` occurs as the `"id"` of an entry whose `field` holds `w`, behind
only well-formed non-matching entries. -/
def idFound (L : List Json) (target field : String) (w : Json) : Prop :=
  ∃ pre fs rest, L = pre ++ Json.obj fs :: rest ∧ idMissing pre target ∧
    fs.lookup "id" = some (Json.str target) ∧ fs.lookup field = some w

lemma findAssign_of_idMissing (L : List Json) (target field : String)
    (h : idMissing L target) :
    findAssign L "id" target field = Except.ok none :=
  findAssign_none L "id" target field h

lemma findAssign_of_idFound (L : List Json) (target field : String) (w : Json)
    (h : idFound L target field w) :
    findAssign L "id" target field = Except.ok (some w) := by
  obtain ⟨pre, fs, rest, rfl, hpre, hid, hw⟩ := h
  exact findAssign_found pre rest fs "id" target field w hpre hid hw

/-! ## Concrete demonstration inputs -/

def cDemo : Client :=
  { client_id := "id", client_secret := "secret", base_endpoint := baseURL,
    token := Json.str "tok", headers := [("Authorization", "Bearer tok")],
    sites := Json.arr [], predictions := Json.arr [], users := Json.arr [] }

/-- A transport that always raises. -/
def httpDown : Http := fun _ => TransportResult.exc "connection error"

/-- A transport that always answers `200 {"objects": []}`. -/
def httpEmptyObjects : Http := fun _ =>
  TransportResult.resp { status := 200, body := Json.obj [("objects", Json.arr [])] }

def sitesDemo : Json :=
  Json.arr [Json.obj [("id", Json.str "s1"), ("name", Json.str "denver")]]

def antennasDemo : Json :=
  Json.arr [Json.obj [("id", Json.str "a1"), ("antenna", Json.str "HPA-90")]]

/-- A transport serving one site ("denver") and one antenna ("HPA-90"), and
answering `201` to anything else. -/
def httpRadio : Http := fun req =>
  if req.url = baseURL ++ "antennas" then
    TransportResult.resp { status := 200, body := Json.obj [("objects", antennasDemo)] }
  else if req.url = baseURL ++ "sites" then
    TransportResult.resp { status := 200, body := Json.obj [("objects", sitesDemo)] }
  else
    TransportResult.resp { status := 201, body := Json.str "created" }

/-! ## Claims -/

/-- Claim C1.  The claim says every public method wraps transport errors and
non-2xx statuses into a `RuntimeError` carrying that operation's own static
message stem, with no other exception escaping.  The code diverges twice, as
this evaluation shows: `terminate_subscription` raises `RuntimeError` whose
message stem is `"Failed to renew subscription"` — the stem copy-pasted from
`renew_subscriptions`, not a terminate-specific one — and `get_site_radios`'
except-block indexes the list `self.sites` with a string site id, so a
`TypeError` (not a `RuntimeError`) escapes the method. -/
theorem claim_C1_code_divergence :
    (terminate_subscription "s1" cDemo httpDown).1 =
      Except.error (PyExc.runtimeError "Failed to renew subscription: connection error") ∧
    (renew_subscriptions "s1" cDemo httpDown).1 =
      Except.error (PyExc.runtimeError "Failed to renew subscription: connection error") ∧
    (get_site_radios "s1" cDemo httpDown).1 =
      Except.error (PyExc.typeError "list indices must be integers or slices, not str") :=
  ⟨rfl, rfl, rfl⟩

/-- Claim C2, counterexample.  With both fetched lists empty (`200
{"objects": []}` for both GETs) and `radioName=None`, the claim says the
lookup failure is silent; in fact `create_radio` raises `NameError`
(`UnboundLocalError` for `antenna_name`) from the naming f-string, and no
POST is issued. -/
theorem claim_C2_counterexample :
    (create_radio "s1" "5.8" "a1" "120" dflt_aglHeightMeters none dflt_folliageTuning
        dflt_arHeightMeters dflt_radiusMeters dflt_smGain dflt_tilt dflt_txClearanceMeters
        dflt_txPowerDbm cDemo httpEmptyObjects).1 =
      Except.error (PyExc.nameError "antenna_name") ∧
    (create_radio "s1" "5.8" "a1" "120" dflt_aglHeightMeters none dflt_folliageTuning
        dflt_arHeightMeters dflt_radiusMeters dflt_smGain dflt_tilt dflt_txClearanceMeters
        dflt_txPowerDbm cDemo httpEmptyObjects).2.1 =
      [getReq cDemo "antennas" [("frequency", "5.8")], getReq cDemo "sites" []] :=
  ⟨rfl, rfl⟩

/-- Claim C2 (amended).  When `site_id` is absent from the freshly fetched
sites list or `antennaId` is absent from the frequency-filtered antenna list,
the lookup loop indeed assigns no name and falls through raising nothing
itself, but the subsequent name-building f-string then raises an unhandled
`NameError` (`UnboundLocalError`) — for `antenna_name` when the antenna id is
absent, else for `site_name` — which escapes `create_radio` unwrapped (it is
not a `RequestException`), and no POST is issued.  The failure is therefore
not silent at the method level. -/
theorem claim_C2_amended (c : Client) (http : Http)
    (site_id freq antennaId azimuth agl ft ar rad sm tl txc txp : String)
    (rA rS : Response) (antsL sitesL : List Json)
    (hA : http (getReq c "antennas" [("frequency", freq)]) = TransportResult.resp rA)
    (hsA : ¬(400 ≤ rA.status ∧ rA.status < 600))
    (hoA : objectsOf rA.body = Except.ok (Json.arr antsL))
    (hS : http (getReq c "sites" []) = TransportResult.resp rS)
    (hsS : ¬(400 ≤ rS.status ∧ rS.status < 600))
    (hoS : objectsOf rS.body = Except.ok (Json.arr sitesL)) :
    (idMissing antsL antennaId → idMissing sitesL site_id →
      create_radio site_id freq antennaId azimuth agl none ft ar rad sm tl txc txp c http =
        (Except.error (PyExc.nameError "antenna_name"),
         [getReq c "antennas" [("frequency", freq)], getReq c "sites" []], c)) ∧
    (idMissing antsL antennaId → (∃ w, idFound sitesL site_id "name" w) →
      create_radio site_id freq antennaId azimuth agl none ft ar rad sm tl txc txp c http =
        (Except.error (PyExc.nameError "antenna_name"),
         [getReq c "antennas" [("frequency", freq)], getReq c "sites" []], c)) ∧
    ((∃ aN, idFound antsL antennaId "antenna" (Json.str aN)) → idMissing sitesL site_id →
      create_radio site_id freq antennaId azimuth agl none ft ar rad sm tl txc txp c http =
        (Except.error (PyExc.nameError "site_name"),
         [getReq c "antennas" [("frequency", freq)], getReq c "sites" []], c)) := by
  refine ⟨?_, ?_, ?_⟩
  · intro hAnts hSites
    have hD := defaultRadioName_noAntenna sitesL antsL site_id antennaId azimuth freq none
      (findAssign_of_idMissing sitesL site_id "name" hSites)
      (findAssign_of_idMissing antsL antennaId "antenna" hAnts)
    exact create_radio_eval_nameErr c http site_id freq antennaId azimuth agl ft ar rad sm
      tl txc txp rA rS (Json.arr antsL) (Json.arr sitesL) "antenna_name"
      hA hsA hoA hS hsS hoS hD
  · intro hAnts hSites
    obtain ⟨w, hw⟩ := hSites
    have hD := defaultRadioName_noAntenna sitesL antsL site_id antennaId azimuth freq
      (some w) (findAssign_of_idFound sitesL site_id "name" w hw)
      (findAssign_of_idMissing antsL antennaId "antenna" hAnts)
    exact create_radio_eval_nameErr c http site_id freq antennaId azimuth agl ft ar rad sm
      tl txc txp rA rS (Json.arr antsL) (Json.arr sitesL) "antenna_name"
      hA hsA hoA hS hsS hoS hD
  · intro hAnts hSites
    obtain ⟨aN, ha⟩ := hAnts
    have hD := defaultRadioName_noSite sitesL antsL site_id antennaId azimuth freq aN
      (findAssign_of_idMissing sitesL site_id "name" hSites)
      (findAssign_of_idFound antsL antennaId "antenna" (Json.str aN) ha)
    exact create_radio_eval_nameErr c http site_id freq antennaId azimuth agl ft ar rad sm
      tl txc txp rA rS (Json.arr antsL) (Json.arr sitesL) "site_name"
      hA hsA hoA hS hsS hoS hD

/-- Witness for claim C2 (amended), at the concrete input of the
counterexample. -/
theorem claim_C2_witness :
    create_radio "s0" "5.8" "a0" "120" dflt_aglHeightMeters none dflt_folliageTuning
      dflt_arHeightMeters dflt_radiusMeters dflt_smGain dflt_tilt dflt_txClearanceMeters
      dflt_txPowerDbm cDemo httpEmptyObjects =
      (Except.error (PyExc.nameError "antenna_name"),
       [getReq cDemo "antennas" [("frequency", "5.8")], getReq cDemo "sites" []], cDemo) :=
  (claim_C2_amended cDemo httpEmptyObjects "s0" "5.8" "a0" "120" dflt_aglHeightMeters
      dflt_folliageTuning dflt_arHeightMeters dflt_radiusMeters dflt_smGain dflt_tilt
      dflt_txClearanceMeters dflt_txPowerDbm
      { status := 200, body := Json.obj [("objects", Json.arr [])] }
      { status := 200, body := Json.obj [("objects", Json.arr [])] } [] []
      rfl (by decide) rfl rfl (by decide) rfl).1
    (fun x hx => absurd hx (List.not_mem_nil x))
    (fun x hx => absurd hx (List.not_mem_nil x))

/-- Claim C3.  With `radioName=None`, `site_id` present in the freshly fetched
sites list (name `sN`) and `antennaId` present in the frequency-filtered
antenna list (name `aN`), the POST body's name is
`AP-{antennaPrefix}-{azimuth}-{freqInteger} GHZ.{SITENAME}`: the antenna name
up to its first `-`, the azimuth, the frequency string up to its first `.`,
and the upper-cased site name. -/
theorem claim_C3_default_name (c : Client) (http : Http)
    (site_id freq antennaId azimuth agl ft ar rad sm tl txc txp : String)
    (rA rS : Response) (antsL sitesL : List Json) (aN sN : String)
    (hA : http (getReq c "antennas" [("frequency", freq)]) = TransportResult.resp rA)
    (hsA : ¬(400 ≤ rA.status ∧ rA.status < 600))
    (hoA : objectsOf rA.body = Except.ok (Json.arr antsL))
    (hS : http (getReq c "sites" []) = TransportResult.resp rS)
    (hsS : ¬(400 ≤ rS.status ∧ rS.status < 600))
    (hoS : objectsOf rS.body = Except.ok (Json.arr sitesL))
    (hFa : idFound antsL antennaId "antenna" (Json.str aN))
    (hFs : idFound sitesL site_id "name" (Json.str sN)) :
    (create_radio site_id freq antennaId azimuth agl none ft ar rad sm tl txc txp
      c http).2.1 =
      [getReq c "antennas" [("frequency", freq)], getReq c "sites" [],
       bodyReq c Verb.post ("radio/" ++ site_id)
         (radioBody antennaId
           ("AP-" ++ pySplitFirst aN (Char.ofNat 45) ++ "-" ++ azimuth ++ "-" ++
            pySplitFirst freq (Char.ofNat 46) ++ " GHZ." ++ pyUpper sN)
           azimuth ft freq agl ar rad sm tl txc txp)] := by
  have hD := defaultRadioName_eval sitesL antsL site_id antennaId azimuth freq sN aN
    (findAssign_of_idFound sitesL site_id "name" (Json.str sN) hFs)
    (findAssign_of_idFound antsL antennaId "antenna" (Json.str aN) hFa)
  rw [create_radio_eval_default c http site_id freq antennaId azimuth agl ft ar rad sm tl
    txc txp rA rS (Json.arr antsL) (Json.arr sitesL) _ hA hsA hoA hS hsS hoS hD,
    createPostOutcome_trace]
  rfl

/-- Witness for claim C3, at the spec's worked example: antenna `HPA-90`,
azimuth `120`, frequency `5.8`, site `denver` yield the radio name
`AP-HPA-120-5 GHZ.DENVER`. -/
theorem claim_C3_witness :
    (create_radio "s1" "5.8" "a1" "120" dflt_aglHeightMeters none dflt_folliageTuning
      dflt_arHeightMeters dflt_radiusMeters dflt_smGain dflt_tilt dflt_txClearanceMeters
      dflt_txPowerDbm cDemo httpRadio).2.1 =
      [getReq cDemo "antennas" [("frequency", "5.8")], getReq cDemo "sites" [],
       bodyReq cDemo Verb.post "radio/s1"
         (radioBody "a1" "AP-HPA-120-5 GHZ.DENVER" "120" dflt_folliageTuning "5.8"
           dflt_aglHeightMeters dflt_arHeightMeters dflt_radiusMeters dflt_smGain
           dflt_tilt dflt_txClearanceMeters dflt_txPowerDbm)] := by
  have h := claim_C3_default_name cDemo httpRadio "s1" "5.8" "a1" "120"
    dflt_aglHeightMeters dflt_folliageTuning dflt_arHeightMeters dflt_radiusMeters
    dflt_smGain dflt_tilt dflt_txClearanceMeters dflt_txPowerDbm
    { status := 200, body := Json.obj [("objects", antennasDemo)] }
    { status := 200, body := Json.obj [("objects", sitesDemo)] }
    [Json.obj [("id", Json.str "a1"), ("antenna", Json.str "HPA-90")]]
    [Json.obj [("id", Json.str "s1"), ("name", Json.str "denver")]]
    "HPA-90" "denver"
    rfl (by decide) rfl rfl (by decide) rfl
    ⟨[], [("id", Json.str "a1"), ("antenna", Json.str "HPA-90")], [], rfl,
      fun x hx => absurd hx (List.not_mem_nil x), rfl, rfl⟩
    ⟨[], [("id", Json.str "s1"), ("name", Json.str "denver")], [], rfl,
      fun x hx => absurd hx (List.not_mem_nil x), rfl, rfl⟩
  have hname : "AP-" ++ pySplitFirst "HPA-90" (Char.ofNat 45) ++ "-" ++ "120" ++ "-" ++
      pySplitFirst "5.8" (Char.ofNat 46) ++ " GHZ." ++ pyUpper "denver" =
      "AP-HPA-120-5 GHZ.DENVER" := by decide
  rw [hname] at h
  exact h

/-- Claim C4.  With only the required arguments supplied (every optional
parameter at its source default, `radioName=None`), the PATCH body of
`update_radio` and the POST body of `create_radio` consist of exactly the
twelve documented fields in source order, the eight optional ones carrying the
documented defaults: `height(m)=20`, `foliage_tuning=-1`,
`height_rooftop(m)=0`, `radius(m)=12875`, `sm_gain(dbi)=18.5`, `tilt=-2`,
`txclearance(m)=30`, `txpower(dbm)=27.2`. -/
theorem claim_C4_default_fields :
    (∀ (c : Client) (http : Http) (radio_id freq antennaId azimuth : String),
      (update_radio radio_id freq antennaId azimuth dflt_aglHeightMeters none
        dflt_folliageTuning dflt_arHeightMeters dflt_radiusMeters dflt_smGain dflt_tilt
        dflt_txClearanceMeters dflt_txPowerDbm c http).2.1 =
        [bodyReq c Verb.patch ("radio/" ++ radio_id)
          (Json.obj [("antenna", Json.str antennaId), ("name", Json.str "No Name"),
            ("azimuth", Json.num azimuth), ("foliage_tuning", Json.num "-1"),
            ("frequency(ghz)", Json.num freq), ("height(m)", Json.num "20"),
            ("height_rooftop(m)", Json.num "0"), ("radius(m)", Json.num "12875"),
            ("sm_gain(dbi)", Json.num "18.5"), ("tilt", Json.num "-2"),
            ("txclearance(m)", Json.num "30"), ("txpower(dbm)", Json.num "27.2")])]) ∧
    (∀ (c : Client) (http : Http) (site_id freq antennaId azimuth : String)
       (rA rS : Response) (antsL sitesL : List Json) (aN sN : String),
      http (getReq c "antennas" [("frequency", freq)]) = TransportResult.resp rA →
      ¬(400 ≤ rA.status ∧ rA.status < 600) →
      objectsOf rA.body = Except.ok (Json.arr antsL) →
      http (getReq c "sites" []) = TransportResult.resp rS →
      ¬(400 ≤ rS.status ∧ rS.status < 600) →
      objectsOf rS.body = Except.ok (Json.arr sitesL) →
      idFound antsL antennaId "antenna" (Json.str aN) →
      idFound sitesL site_id "name" (Json.str sN) →
      (create_radio site_id freq antennaId azimuth dflt_aglHeightMeters none
        dflt_folliageTuning dflt_arHeightMeters dflt_radiusMeters dflt_smGain dflt_tilt
        dflt_txClearanceMeters dflt_txPowerDbm c http).2.1 =
        [getReq c "antennas" [("frequency", freq)], getReq c "sites" [],
         bodyReq c Verb.post ("radio/" ++ site_id)
           (Json.obj [("antenna", Json.str antennaId),
             ("name", Json.str ("AP-" ++ pySplitFirst aN (Char.ofNat 45) ++ "-" ++
               azimuth ++ "-" ++ pySplitFirst freq (Char.ofNat 46) ++ " GHZ." ++
               pyUpper sN)),
             ("azimuth", Json.num azimuth), ("foliage_tuning", Json.num "-1"),
             ("frequency(ghz)", Json.num freq), ("height(m)", Json.num "20"),
             ("height_rooftop(m)", Json.num "0"), ("radius(m)", Json.num "12875"),
             ("sm_gain(dbi)", Json.num "18.5"), ("tilt", Json.num "-2"),
             ("txclearance(m)", Json.num "30"), ("txpower(dbm)", Json.num "27.2")])]) := by
  constructor
  · intro c http radio_id freq antennaId azimuth
    exact (simpleMethod_frame _ _ _ c http).1
  · intro c http site_id freq antennaId azimuth rA rS antsL sitesL aN sN
      hA hsA hoA hS hsS hoS hFa hFs
    have hD := defaultRadioName_eval sitesL antsL site_id antennaId azimuth freq sN aN
      (findAssign_of_idFound sitesL site_id "name" (Json.str sN) hFs)
      (findAssign_of_idFound antsL antennaId "antenna" (Json.str aN) hFa)
    rw [create_radio_eval_default c http site_id freq antennaId azimuth
      dflt_aglHeightMeters dflt_folliageTuning dflt_arHeightMeters dflt_radiusMeters
      dflt_smGain dflt_tilt dflt_txClearanceMeters dflt_txPowerDbm
      rA rS (Json.arr antsL) (Json.arr sitesL) _ hA hsA hoA hS hsS hoS hD,
      createPostOutcome_trace]
    rfl

/-- Witness for claim C4, at the concrete transport of the C3 example. -/
theorem claim_C4_witness :
    (update_radio "r1" "5.8" "a1" "120" dflt_aglHeightMeters none dflt_folliageTuning
      dflt_arHeightMeters dflt_radiusMeters dflt_smGain dflt_tilt dflt_txClearanceMeters
      dflt_txPowerDbm cDemo httpRadio).2.1 =
      [bodyReq cDemo Verb.patch "radio/r1"
        (Json.obj [("antenna", Json.str "a1"), ("name", Json.str "No Name"),
          ("azimuth", Json.num "120"), ("foliage_tuning", Json.num "-1"),
          ("frequency(ghz)", Json.num "5.8"), ("height(m)", Json.num "20"),
          ("height_rooftop(m)", Json.num "0"), ("radius(m)", Json.num "12875"),
          ("sm_gain(dbi)", Json.num "18.5"), ("tilt", Json.num "-2"),
          ("txclearance(m)", Json.num "30"), ("txpower(dbm)", Json.num "27.2")])] ∧
    (create_radio "s1" "5.8" "a1" "120" dflt_aglHeightMeters none dflt_folliageTuning
      dflt_arHeightMeters dflt_radiusMeters dflt_smGain dflt_tilt dflt_txClearanceMeters
      dflt_txPowerDbm cDemo httpRadio).2.1 =
      [getReq cDemo "antennas" [("frequency", "5.8")], getReq cDemo "sites" [],
       bodyReq cDemo Verb.post "radio/s1"
         (Json.obj [("antenna", Json.str "a1"),
           ("name", Json.str ("AP-" ++ pySplitFirst "HPA-90" (Char.ofNat 45) ++ "-" ++
             "120" ++ "-" ++ pySplitFirst "5.8" (Char.ofNat 46) ++ " GHZ." ++
             pyUpper "denver")),
           ("azimuth", Json.num "120"), ("foliage_tuning", Json.num "-1"),
           ("frequency(ghz)", Json.num "5.8"), ("height(m)", Json.num "20"),
           ("height_rooftop(m)", Json.num "0"), ("radius(m)", Json.num "12875"),
           ("sm_gain(dbi)", Json.num "18.5"), ("tilt", Json.num "-2"),
           ("txclearance(m)", Json.num "30"), ("txpower(dbm)", Json.num "27.2")])] :=
  ⟨claim_C4_default_fields.1 cDemo httpRadio "r1" "5.8" "a1" "120",
   claim_C4_default_fields.2 cDemo httpRadio "s1" "5.8" "a1" "120"
     { status := 200, body := Json.obj [("objects", antennasDemo)] }
     { status := 200, body := Json.obj [("objects", sitesDemo)] }
     [Json.obj [("id", Json.str "a1"), ("antenna", Json.str "HPA-90")]]
     [Json.obj [("id", Json.str "s1"), ("name", Json.str "denver")]]
     "HPA-90" "denver"
     rfl (by decide) rfl rfl (by decide) rfl
     ⟨[], [("id", Json.str "a1"), ("antenna", Json.str "HPA-90")], [], rfl,
       fun x hx => absurd hx (List.not_mem_nil x), rfl, rfl⟩
     ⟨[], [("id", Json.str "s1"), ("name", Json.str "denver")], [], rfl,
       fun x hx => absurd hx (List.not_mem_nil x), rfl, rfl⟩⟩

/-- A transport whose token endpoint answers `200 {"access_token": "T"}` and
which answers `200 {"objects": []}` to everything else. -/
def httpGood : Http := fun req =>
  if req.url = baseURL ++ "oauth/token" then
    TransportResult.resp { status := 200, body := Json.obj [("access_token", Json.str "T")] }
  else
    TransportResult.resp { status := 200, body := Json.obj [("objects", Json.arr [])] }

/-- Claim C5.  Construction first authenticates — aborting the whole
construction with the `Authentication failed` error after the single auth
request if that fails — then unconditionally performs exactly three further
calls fetching sites, predictions and users, in that order; if any of the
three fetches fails the construction aborts entirely (wrapped in that fetch's
message); and when everything succeeds the client's `sites`, `predictions`
and `users` snapshots are exactly the `objects` lists those calls returned. -/
theorem claim_C5_construction (cid cs : String) (http : Http) :
    (httpFails http (authRequest baseURL cid cs) →
      ∃ m, cnHeat_init cid cs http =
        (Except.error (PyExc.runtimeError ("Authentication failed: " ++ m)),
         [authRequest baseURL cid cs])) ∧
    (∀ (rAuth rS rP rU : Response) (tok sv pv uv : Json),
      http (authRequest baseURL cid cs) = TransportResult.resp rAuth →
      ¬(400 ≤ rAuth.status ∧ rAuth.status < 600) →
      pyDictGet rAuth.body "access_token" Json.null = Except.ok tok →
      http (initReq tok "sites") = TransportResult.resp rS →
      ¬(400 ≤ rS.status ∧ rS.status < 600) →
      objectsOf rS.body = Except.ok sv →
      http (initReq tok "predictions") = TransportResult.resp rP →
      ¬(400 ≤ rP.status ∧ rP.status < 600) →
      objectsOf rP.body = Except.ok pv →
      http (initReq tok "users") = TransportResult.resp rU →
      ¬(400 ≤ rU.status ∧ rU.status < 600) →
      objectsOf rU.body = Except.ok uv →
      cnHeat_init cid cs http =
        (Except.ok
          { client_id := cid, client_secret := cs, base_endpoint := baseURL, token := tok,
            headers := [("Authorization", "Bearer " ++ pyStr tok)],
            sites := sv, predictions := pv, users := uv },
         [authRequest baseURL cid cs, initReq tok "sites", initReq tok "predictions",
          initReq tok "users"])) ∧
    (∀ (rAuth : Response) (tok : Json),
      http (authRequest baseURL cid cs) = TransportResult.resp rAuth →
      ¬(400 ≤ rAuth.status ∧ rAuth.status < 600) →
      pyDictGet rAuth.body "access_token" Json.null = Except.ok tok →
      httpFails http (initReq tok "sites") →
      ∃ m, cnHeat_init cid cs http =
        (Except.error (PyExc.runtimeError ("Failed to fetch sites: " ++ m)),
         [authRequest baseURL cid cs, initReq tok "sites"])) ∧
    (∀ (rAuth rS : Response) (tok sv : Json),
      http (authRequest baseURL cid cs) = TransportResult.resp rAuth →
      ¬(400 ≤ rAuth.status ∧ rAuth.status < 600) →
      pyDictGet rAuth.body "access_token" Json.null = Except.ok tok →
      http (initReq tok "sites") = TransportResult.resp rS →
      ¬(400 ≤ rS.status ∧ rS.status < 600) →
      objectsOf rS.body = Except.ok sv →
      httpFails http (initReq tok "predictions") →
      ∃ m, cnHeat_init cid cs http =
        (Except.error (PyExc.runtimeError ("Failed to fetch predicitions: " ++ m)),
         [authRequest baseURL cid cs, initReq tok "sites", initReq tok "predictions"])) ∧
    (∀ (rAuth rS rP : Response) (tok sv pv : Json),
      http (authRequest baseURL cid cs) = TransportResult.resp rAuth →
      ¬(400 ≤ rAuth.status ∧ rAuth.status < 600) →
      pyDictGet rAuth.body "access_token" Json.null = Except.ok tok →
      http (initReq tok "sites") = TransportResult.resp rS →
      ¬(400 ≤ rS.status ∧ rS.status < 600) →
      objectsOf rS.body = Except.ok sv →
      http (initReq tok "predictions") = TransportResult.resp rP →
      ¬(400 ≤ rP.status ∧ rP.status < 600) →
      objectsOf rP.body = Except.ok pv →
      httpFails http (initReq tok "users") →
      ∃ m, cnHeat_init cid cs http =
        (Except.error (PyExc.runtimeError ("Failed to get users: " ++ m)),
         [authRequest baseURL cid cs, initReq tok "sites", initReq tok "predictions",
          initReq tok "users"])) := by
  refine ⟨?_, ?_, ?_, ?_, ?_⟩
  · intro hf
    exact cnHeat_init_authFail cid cs http hf
  · intro rAuth rS rP rU tok sv pv uv hAuth hsAuth htok hS hsS hoS hP hsP hoP hU hsU hoU
    exact cnHeat_init_ok cid cs http rAuth rS rP rU tok sv pv uv hAuth hsAuth htok
      hS hsS hoS hP hsP hoP hU hsU hoU
  · intro rAuth tok hAuth hsAuth htok hfS
    exact cnHeat_init_sitesFail cid cs http rAuth tok hAuth hsAuth htok hfS
  · intro rAuth rS tok sv hAuth hsAuth htok hS hsS hoS hfP
    exact cnHeat_init_predictionsFail cid cs http rAuth rS tok sv hAuth hsAuth htok
      hS hsS hoS hfP
  · intro rAuth rS rP tok sv pv hAuth hsAuth htok hS hsS hoS hP hsP hoP hfU
    exact cnHeat_init_usersFail cid cs http rAuth rS rP tok sv pv hAuth hsAuth htok
      hS hsS hoS hP hsP hoP hfU

/-- Witness for claim C5: a fully successful construction at a concrete
transport. -/
theorem claim_C5_witness :
    cnHeat_init "a" "b" httpGood =
      (Except.ok
        { client_id := "a", client_secret := "b", base_endpoint := baseURL,
          token := Json.str "T", headers := [("Authorization", "Bearer T")],
          sites := Json.arr [], predictions := Json.arr [], users := Json.arr [] },
       [authRequest baseURL "a" "b", initReq (Json.str "T") "sites",
        initReq (Json.str "T") "predictions", initReq (Json.str "T") "users"]) :=
  (claim_C5_construction "a" "b" httpGood).2.1
    { status := 200, body := Json.obj [("access_token", Json.str "T")] }
    { status := 200, body := Json.obj [("objects", Json.arr [])] }
    { status := 200, body := Json.obj [("objects", Json.arr [])] }
    { status := 200, body := Json.obj [("objects", Json.arr [])] }
    (Json.str "T") (Json.arr []) (Json.arr []) (Json.arr [])
    rfl (by decide) rfl rfl (by decide) rfl rfl (by decide) rfl rfl (by decide) rfl

/-- Claim C6.  No public method other than construction ever writes to the
client: whatever the transport outcome, the final `self` component of every
method equals the incoming client, so the `sites`, `predictions` and `users`
snapshots captured at construction are never changed (in particular never
re-synced) by any later call. -/
theorem claim_C6_snapshots_frame (c : Client) (http : Http)
    (a b d e f g i j k l m o : String) (nm : Option String) (ids : List String) :
    (get_credits c http).2.2 = c ∧
    (get_antennas a c http).2.2 = c ∧
    (get_site_radios a c http).2.2 = c ∧
    (get_radio a c http).2.2 = c ∧
    (delete_radio a c http).2.2 = c ∧
    (create_radio a b d e f nm g i j k l m o c http).2.2 = c ∧
    (update_radio a b d e f nm g i j k l m o c http).2.2 = c ∧
    (get_sites c http).2.2 = c ∧
    (rename_site a b c http).2.2 = c ∧
    (create_site a b d e c http).2.2 = c ∧
    (get_predictions c http).2.2 = c ∧
    (create_prediction a ids c http).2.2 = c ∧
    (get_predictions_statuses c http).2.2 = c ∧
    (rename_prediction a b c http).2.2 = c ∧
    (delete_prediction a c http).2.2 = c ∧
    (get_users c http).2.2 = c ∧
    (add_user a b c http).2.2 = c ∧
    (delete_user a c http).2.2 = c ∧
    (get_subscriptions c http).2.2 = c ∧
    (renew_subscriptions a c http).2.2 = c ∧
    (terminate_subscription a c http).2.2 = c :=
  ⟨preservesClient_simpleMethod _ _ _ c http,
   preservesClient_simpleMethod _ _ _ c http,
   preservesClient_get_site_radios a c http,
   preservesClient_simpleMethod _ _ _ c http,
   preservesClient_simpleMethod _ _ _ c http,
   preservesClient_create_radio a b d e f nm g i j k l m o c http,
   preservesClient_simpleMethod _ _ _ c http,
   preservesClient_simpleMethod _ _ _ c http,
   preservesClient_simpleMethod _ _ _ c http,
   preservesClient_simpleMethod _ _ _ c http,
   preservesClient_simpleMethod _ _ _ c http,
   preservesClient_simpleMethod _ _ _ c http,
   preservesClient_simpleMethod _ _ _ c http,
   preservesClient_simpleMethod _ _ _ c http,
   preservesClient_simpleMethod _ _ _ c http,
   preservesClient_simpleMethod _ _ _ c http,
   preservesClient_simpleMethod _ _ _ c http,
   preservesClient_simpleMethod _ _ _ c http,
   preservesClient_simpleMethod _ _ _ c http,
   preservesClient_simpleMethod _ _ _ c http,
   preservesClient_simpleMethod _ _ _ c http⟩

/-- `objects` narrowing on a dict body, whatever it holds. -/
lemma objectsOf_obj (fs : List (String × Json)) :
    objectsOf (Json.obj fs) = Except.ok ((fs.lookup "objects").getD (Json.arr [])) := by
  simp [objectsOf, pyDictGet]

lemma trace_bind_head {x : CM α} {f : α → CM β} (c : Client) (http : Http) (r0 : Request)
    (hx : (x c http).2.1 = [r0]) :
    ∃ t, ((x >>= f) c http).2.1 = r0 :: t := by
  rw [CM.bind_eq]
  unfold CM.bind
  cases hpx : (x c http).1 with
  | error e =>
      refine ⟨[], ?_⟩
      simp only [hpx, hx]
  | ok a =>
      refine ⟨(f a (x c http).2.2 http).2.1, ?_⟩
      simp only [hpx, hx]
      simp

lemma trace_tryReq_head {body : CM α} {handler : String → CM α} (c : Client) (http : Http)
    (r0 : Request) (hb : ∃ t, (body c http).2.1 = r0 :: t) :
    ∃ t, (tryReq body handler c http).2.1 = r0 :: t := by
  obtain ⟨t, ht⟩ := hb
  unfold tryReq
  cases hp : (body c http).1 with
  | ok a => exact ⟨t, by simp only [hp]; exact ht⟩
  | error e =>
      cases e <;> simp only [hp]
      case requestException m =>
        exact ⟨t ++ (handler m (body c http).2.2 http).2.1, by simp [ht]⟩
      all_goals exact ⟨t, ht⟩

/-- Whatever the arguments and the transport, `create_radio`'s first request
is always its antennas GET. -/
lemma create_radio_first_request (site_id freq antennaId azimuth agl : String)
    (radioName : Option String) (ft ar rad sm tl txc txp : String)
    (c : Client) (http : Http) :
    ∃ t, (create_radio site_id freq antennaId azimuth agl radioName ft ar rad sm tl txc
      txp c http).2.1 = getReq c "antennas" [("frequency", freq)] :: t := by
  unfold create_radio
  rw [bind_getSelf]
  apply trace_tryReq_head
  apply trace_bind_head
  exact (simpleMethod_frame _ _ _ c http).1

/-- Claim C8.  When the authentication POST returns a success status whose
dict body lacks `access_token`, `_authenticate` returns `None` without
raising, construction proceeds, and every subsequent request carries the
literal header `Authorization: Bearer None`; the `Authentication failed`
error arises only from a transport exception or a `raise_for_status`
status. -/
theorem claim_C8_token_none (cid cs : String) (http : Http) :
    (∀ (rAuth : Response) (fs : List (String × Json)),
      http (authRequest baseURL cid cs) = TransportResult.resp rAuth →
      ¬(400 ≤ rAuth.status ∧ rAuth.status < 600) →
      rAuth.body = Json.obj fs →
      fs.lookup "access_token" = none →
      pyAuthenticate baseURL cid cs http =
        (Except.ok Json.null, [authRequest baseURL cid cs])) ∧
    (∀ (rAuth rS rP rU : Response) (fs : List (String × Json)) (sv pv uv : Json),
      http (authRequest baseURL cid cs) = TransportResult.resp rAuth →
      ¬(400 ≤ rAuth.status ∧ rAuth.status < 600) →
      rAuth.body = Json.obj fs →
      fs.lookup "access_token" = none →
      http (initReq Json.null "sites") = TransportResult.resp rS →
      ¬(400 ≤ rS.status ∧ rS.status < 600) →
      objectsOf rS.body = Except.ok sv →
      http (initReq Json.null "predictions") = TransportResult.resp rP →
      ¬(400 ≤ rP.status ∧ rP.status < 600) →
      objectsOf rP.body = Except.ok pv →
      http (initReq Json.null "users") = TransportResult.resp rU →
      ¬(400 ≤ rU.status ∧ rU.status < 600) →
      objectsOf rU.body = Except.ok uv →
      cnHeat_init cid cs http =
        (Except.ok
          { client_id := cid, client_secret := cs, base_endpoint := baseURL,
            token := Json.null, headers := [("Authorization", "Bearer None")],
            sites := sv, predictions := pv, users := uv },
         [authRequest baseURL cid cs, initReq Json.null "sites",
          initReq Json.null "predictions", initReq Json.null "users"]) ∧
      (initReq Json.null "sites").headers = [("Authorization", "Bearer None")]) ∧
    (∀ m, (pyAuthenticate baseURL cid cs http).1 = Except.error (PyExc.runtimeError m) →
      httpFails http (authRequest baseURL cid cs)) := by
  refine ⟨?_, ?_, ?_⟩
  · intro rAuth fs hAuth hsAuth hb hmiss
    have htok : pyDictGet rAuth.body "access_token" Json.null = Except.ok Json.null := by
      rw [hb]
      simp [pyDictGet, hmiss]
    exact pyAuthenticate_ok cid cs http rAuth Json.null hAuth hsAuth htok
  · intro rAuth rS rP rU fs sv pv uv hAuth hsAuth hb hmiss hS hsS hoS hP hsP hoP hU hsU hoU
    have htok : pyDictGet rAuth.body "access_token" Json.null = Except.ok Json.null := by
      rw [hb]
      simp [pyDictGet, hmiss]
    exact ⟨cnHeat_init_ok cid cs http rAuth rS rP rU Json.null sv pv uv hAuth hsAuth htok
      hS hsS hoS hP hsP hoP hU hsU hoU, rfl⟩
  · intro m hm
    simp only [pyAuthenticate] at hm
    cases hq : http (authRequest baseURL cid cs) with
    | exc s => exact Or.inl ⟨s, hq⟩
    | resp r =>
        by_cases hbad : 400 ≤ r.status ∧ r.status < 600
        · exact Or.inr ⟨r, hq, hbad.1, hbad.2⟩
        · rw [hq] at hm
          simp only [hbad, if_false] at hm
          cases hbody : r.body <;> rw [hbody] at hm <;> simp [pyDictGet] at hm

/-- Witness for claim C8: a transport whose token endpoint answers
`200 {"objects": []}` (no `access_token`) leads to a constructed client whose
requests say `Bearer None`. -/
theorem claim_C8_witness :
    cnHeat_init "a" "b" httpEmptyObjects =
      (Except.ok
        { client_id := "a", client_secret := "b", base_endpoint := baseURL,
          token := Json.null, headers := [("Authorization", "Bearer None")],
          sites := Json.arr [], predictions := Json.arr [], users := Json.arr [] },
       [authRequest baseURL "a" "b", initReq Json.null "sites",
        initReq Json.null "predictions", initReq Json.null "users"]) ∧
    (initReq Json.null "sites").headers = [("Authorization", "Bearer None")] :=
  (claim_C8_token_none "a" "b" httpEmptyObjects).2.1
    { status := 200, body := Json.obj [("objects", Json.arr [])] }
    { status := 200, body := Json.obj [("objects", Json.arr [])] }
    { status := 200, body := Json.obj [("objects", Json.arr [])] }
    { status := 200, body := Json.obj [("objects", Json.arr [])] }
    [("objects", Json.arr [])] (Json.arr []) (Json.arr []) (Json.arr [])
    rfl (by decide) rfl rfl rfl (by decide) rfl rfl (by decide) rfl rfl (by decide) rfl

/-- Claim C9.  `create_radio` always issues its antennas GET first, whatever
the arguments (in particular with an explicit `radioName`, whose value makes
the fetched lists unused); and on the success path with an explicit
`radioName` the call performs exactly three requests: GET antennas, GET
sites, then the POST. -/
theorem claim_C9_three_requests (c : Client) (http : Http)
    (site_id freq antennaId azimuth agl ft ar rad sm tl txc txp : String) :
    (∀ (nm : String) (rA rS : Response) (bA bS : List (String × Json)),
      http (getReq c "antennas" [("frequency", freq)]) = TransportResult.resp rA →
      ¬(400 ≤ rA.status ∧ rA.status < 600) →
      rA.body = Json.obj bA →
      http (getReq c "sites" []) = TransportResult.resp rS →
      ¬(400 ≤ rS.status ∧ rS.status < 600) →
      rS.body = Json.obj bS →
      (create_radio site_id freq antennaId azimuth agl (some nm) ft ar rad sm tl txc txp
        c http).2.1 =
        [getReq c "antennas" [("frequency", freq)], getReq c "sites" [],
         bodyReq c Verb.post ("radio/" ++ site_id)
           (radioBody antennaId nm azimuth ft freq agl ar rad sm tl txc txp)]) ∧
    (∀ (radioName : Option String),
      ∃ t, (create_radio site_id freq antennaId azimuth agl radioName ft ar rad sm tl txc
        txp c http).2.1 = getReq c "antennas" [("frequency", freq)] :: t) := by
  constructor
  · intro nm rA rS bA bS hA hsA hbA hS hsS hbS
    have hoA : objectsOf rA.body = Except.ok ((bA.lookup "objects").getD (Json.arr [])) := by
      rw [hbA]
      exact objectsOf_obj bA
    have hoS : objectsOf rS.body = Except.ok ((bS.lookup "objects").getD (Json.arr [])) := by
      rw [hbS]
      exact objectsOf_obj bS
    rw [create_radio_eval_named c http site_id freq antennaId azimuth agl nm ft ar rad sm
      tl txc txp rA rS _ _ hA hsA hoA hS hsS hoS, createPostOutcome_trace]
    rfl
  · intro radioName
    exact create_radio_first_request site_id freq antennaId azimuth agl radioName
      ft ar rad sm tl txc txp c http

/-- Witness for claim C9, at a concrete transport. -/
theorem claim_C9_witness :
    (create_radio "s1" "5.8" "a1" "120" dflt_aglHeightMeters (some "myradio")
      dflt_folliageTuning dflt_arHeightMeters dflt_radiusMeters dflt_smGain dflt_tilt
      dflt_txClearanceMeters dflt_txPowerDbm cDemo httpRadio).2.1 =
      [getReq cDemo "antennas" [("frequency", "5.8")], getReq cDemo "sites" [],
       bodyReq cDemo Verb.post "radio/s1"
         (radioBody "a1" "myradio" "120" dflt_folliageTuning "5.8" dflt_aglHeightMeters
           dflt_arHeightMeters dflt_radiusMeters dflt_smGain dflt_tilt
           dflt_txClearanceMeters dflt_txPowerDbm)] :=
  (claim_C9_three_requests cDemo httpRadio "s1" "5.8" "a1" "120" dflt_aglHeightMeters
      dflt_folliageTuning dflt_arHeightMeters dflt_radiusMeters dflt_smGain dflt_tilt
      dflt_txClearanceMeters dflt_txPowerDbm).1 "myradio"
    { status := 200, body := Json.obj [("objects", antennasDemo)] }
    { status := 200, body := Json.obj [("objects", sitesDemo)] }
    [("objects", antennasDemo)] [("objects", sitesDemo)]
    rfl (by decide) rfl rfl (by decide) rfl

/-- Claim C10.  For a success response whose dict body lacks the `objects`
key, every list-returning method returns the empty list rather than
raising. -/
theorem claim_C10_missing_objects (c : Client) (http : Http) (freq site_id : String) :
    (∀ (r : Response) (fs : List (String × Json)),
      http (getReq c "antennas" [("frequency", freq)]) = TransportResult.resp r →
      ¬(400 ≤ r.status ∧ r.status < 600) →
      r.body = Json.obj fs → fs.lookup "objects" = none →
      (get_antennas freq c http).1 = Except.ok (Json.arr [])) ∧
    (∀ (r : Response) (fs : List (String × Json)),
      http (getReq c ("radios/" ++ site_id) []) = TransportResult.resp r →
      ¬(400 ≤ r.status ∧ r.status < 600) →
      r.body = Json.obj fs → fs.lookup "objects" = none →
      (get_site_radios site_id c http).1 = Except.ok (Json.arr [])) ∧
    (∀ (r : Response) (fs : List (String × Json)),
      http (getReq c "sites" []) = TransportResult.resp r →
      ¬(400 ≤ r.status ∧ r.status < 600) →
      r.body = Json.obj fs → fs.lookup "objects" = none →
      (get_sites c http).1 = Except.ok (Json.arr [])) ∧
    (∀ (r : Response) (fs : List (String × Json)),
      http (getReq c "predictions" []) = TransportResult.resp r →
      ¬(400 ≤ r.status ∧ r.status < 600) →
      r.body = Json.obj fs → fs.lookup "objects" = none →
      (get_predictions c http).1 = Except.ok (Json.arr [])) ∧
    (∀ (r : Response) (fs : List (String × Json)),
      http (getReq c "predictions/jobmanagement" []) = TransportResult.resp r →
      ¬(400 ≤ r.status ∧ r.status < 600) →
      r.body = Json.obj fs → fs.lookup "objects" = none →
      (get_predictions_statuses c http).1 = Except.ok (Json.arr [])) ∧
    (∀ (r : Response) (fs : List (String × Json)),
      http (getReq c "users" []) = TransportResult.resp r →
      ¬(400 ≤ r.status ∧ r.status < 600) →
      r.body = Json.obj fs → fs.lookup "objects" = none →
      (get_users c http).1 = Except.ok (Json.arr [])) ∧
    (∀ (r : Response) (fs : List (String × Json)),
      http (getReq c "subscriptions" []) = TransportResult.resp r →
      ¬(400 ≤ r.status ∧ r.status < 600) →
      r.body = Json.obj fs → fs.lookup "objects" = none →
      (get_subscriptions c http).1 = Except.ok (Json.arr [])) := by
  refine ⟨?_, ?_, ?_, ?_, ?_, ?_, ?_⟩
  · intro r fs h hs hb hmiss
    have hm : get_antennas freq c http =
        (objectsOf r.body, [getReq c "antennas" [("frequency", freq)]], c) :=
      simpleMethod_ok _ objectsOf _ (fun b m => objectsOf_ne_reqExc b m) c http r h hs
    rw [hm, hb]
    exact objectsOf_missing fs hmiss
  · intro r fs h hs hb hmiss
    rw [get_site_radios_ok site_id c http r h hs, hb]
    exact objectsOf_missing fs hmiss
  · intro r fs h hs hb hmiss
    have hm : get_sites c http = (objectsOf r.body, [getReq c "sites" []], c) :=
      simpleMethod_ok _ objectsOf _ (fun b m => objectsOf_ne_reqExc b m) c http r h hs
    rw [hm, hb]
    exact objectsOf_missing fs hmiss
  · intro r fs h hs hb hmiss
    have hm : get_predictions c http = (objectsOf r.body, [getReq c "predictions" []], c) :=
      simpleMethod_ok _ objectsOf _ (fun b m => objectsOf_ne_reqExc b m) c http r h hs
    rw [hm, hb]
    exact objectsOf_missing fs hmiss
  · intro r fs h hs hb hmiss
    have hm : get_predictions_statuses c http =
        (objectsOf r.body, [getReq c "predictions/jobmanagement" []], c) :=
      simpleMethod_ok _ objectsOf _ (fun b m => objectsOf_ne_reqExc b m) c http r h hs
    rw [hm, hb]
    exact objectsOf_missing fs hmiss
  · intro r fs h hs hb hmiss
    have hm : get_users c http = (objectsOf r.body, [getReq c "users" []], c) :=
      simpleMethod_ok _ objectsOf _ (fun b m => objectsOf_ne_reqExc b m) c http r h hs
    rw [hm, hb]
    exact objectsOf_missing fs hmiss
  · intro r fs h hs hb hmiss
    have hm : get_subscriptions c http =
        (objectsOf r.body, [getReq c "subscriptions" []], c) :=
      simpleMethod_ok _ objectsOf _ (fun b m => objectsOf_ne_reqExc b m) c http r h hs
    rw [hm, hb]
    exact objectsOf_missing fs hmiss

/-- A transport answering `200 {}` — an empty dict, no `objects` key — to
everything. -/
def httpBareDict : Http := fun _ =>
  TransportResult.resp { status := 200, body := Json.obj [] }

/-- Witness for claim C10: every list-returning method yields `[]` when the
body is `{}`. -/
theorem claim_C10_witness :
    (get_antennas "5.8" cDemo httpBareDict).1 = Except.ok (Json.arr []) ∧
    (get_site_radios "s1" cDemo httpBareDict).1 = Except.ok (Json.arr []) ∧
    (get_sites cDemo httpBareDict).1 = Except.ok (Json.arr []) ∧
    (get_predictions cDemo httpBareDict).1 = Except.ok (Json.arr []) ∧
    (get_predictions_statuses cDemo httpBareDict).1 = Except.ok (Json.arr []) ∧
    (get_users cDemo httpBareDict).1 = Except.ok (Json.arr []) ∧
    (get_subscriptions cDemo httpBareDict).1 = Except.ok (Json.arr []) := by
  have h := claim_C10_missing_objects cDemo httpBareDict "5.8" "s1"
  exact ⟨h.1 { status := 200, body := Json.obj [] } [] rfl (by decide) rfl rfl,
    h.2.1 { status := 200, body := Json.obj [] } [] rfl (by decide) rfl rfl,
    h.2.2.1 { status := 200, body := Json.obj [] } [] rfl (by decide) rfl rfl,
    h.2.2.2.1 { status := 200, body := Json.obj [] } [] rfl (by decide) rfl rfl,
    h.2.2.2.2.1 { status := 200, body := Json.obj [] } [] rfl (by decide) rfl rfl,
    h.2.2.2.2.2.1 { status := 200, body := Json.obj [] } [] rfl (by decide) rfl rfl,
    h.2.2.2.2.2.2 { status := 200, body := Json.obj [] } [] rfl (by decide) rfl rfl⟩

/-! ## Claim C7: request headers and bodies -/

/-- A request that carries exactly `self`'s headers (the bearer header built
at construction) and whose body, when present, is JSON. -/
def wellFormedReq (c : Client) (r : Request) : Prop :=
  r.headers = c.headers ∧ (r.body = none ∨ ∃ j, r.body = some (Body.json j))

lemma simpleMethod_wellFormed (mkReq : Client → Request) (post : Json → Except PyExc α)
    (pfx : String)
    (hmk : ∀ cl, (mkReq cl).headers = cl.headers ∧
      ((mkReq cl).body = none ∨ ∃ j, (mkReq cl).body = some (Body.json j)))
    (c : Client) (http : Http) :
    ∀ r ∈ (simpleMethod mkReq post pfx c http).2.1, wellFormedReq c r := by
  intro r hr
  rw [(simpleMethod_frame mkReq post pfx c http).1, List.mem_singleton] at hr
  subst hr
  exact hmk c

lemma get_site_radios_wellFormed (site_id : String) (c : Client) (http : Http) :
    ∀ r ∈ (get_site_radios site_id c http).2.1, wellFormedReq c r := by
  intro r hr
  rw [(get_site_radios_frame site_id c http).1, List.mem_singleton] at hr
  subst hr
  exact ⟨rfl, Or.inl rfl⟩

lemma create_radio_wellFormed (site_id freq antennaId azimuth agl : String)
    (radioName : Option String) (ft ar rad sm tl txc txp : String)
    (c : Client) (http : Http) :
    ∀ r ∈ (create_radio site_id freq antennaId azimuth agl radioName ft ar rad sm tl txc
      txp c http).2.1, wellFormedReq c r := by
  intro r hr
  rcases create_radio_trace_shape site_id freq antennaId azimuth agl radioName ft ar rad
    sm tl txc txp c http r hr with h | h | ⟨nm, h⟩ <;> subst h
  · exact ⟨rfl, Or.inl rfl⟩
  · exact ⟨rfl, Or.inl rfl⟩
  · exact ⟨rfl, Or.inr ⟨_, rfl⟩⟩

/-- Claim C7, counterexample.  The authentication POST is itself a request
issued by the client, yet it carries no `Authorization` header at all and its
body is form-encoded credentials, not JSON — refuting "every HTTP request
issued by the client carries `Authorization: Bearer <token>`" and "every
request body is JSON" as stated. -/
theorem claim_C7_counterexample :
    ∃ r ∈ (cnHeat_init "a" "b" httpGood).2,
      r.headers = [] ∧ ∀ j : Json, r.body ≠ some (Body.json j) := by
  refine ⟨authRequest baseURL "a" "b", ?_, rfl, ?_⟩
  · have ht : (cnHeat_init "a" "b" httpGood).2 =
        [authRequest baseURL "a" "b", initReq (Json.str "T") "sites",
         initReq (Json.str "T") "predictions", initReq (Json.str "T") "users"] := rfl
    rw [ht]
    exact List.mem_cons_self _ _
  · intro j h
    simp [authRequest] at h

/-- Claim C7 (amended).  Apart from the authentication POST (which sends
form-encoded credentials with no `Authorization` header), every request
issued by the client carries exactly `self.headers` — the
`Authorization: Bearer <token>` header built from the token obtained at
construction — and a JSON body when it has one; on a successful construction
the three eager fetches carry that bearer header and the resulting client's
`headers` field is exactly it; and every list-returning method returns the
content of the `objects` field of the decoded response. -/
theorem claim_C7_amended (c : Client) (http : Http)
    (cid cs a b d e f g i j k l m o : String) (nm : Option String) (ids : List String) :
    (∀ (rAuth rS rP rU : Response) (tok sv pv uv : Json),
      http (authRequest baseURL cid cs) = TransportResult.resp rAuth →
      ¬(400 ≤ rAuth.status ∧ rAuth.status < 600) →
      pyDictGet rAuth.body "access_token" Json.null = Except.ok tok →
      http (initReq tok "sites") = TransportResult.resp rS →
      ¬(400 ≤ rS.status ∧ rS.status < 600) →
      objectsOf rS.body = Except.ok sv →
      http (initReq tok "predictions") = TransportResult.resp rP →
      ¬(400 ≤ rP.status ∧ rP.status < 600) →
      objectsOf rP.body = Except.ok pv →
      http (initReq tok "users") = TransportResult.resp rU →
      ¬(400 ≤ rU.status ∧ rU.status < 600) →
      objectsOf rU.body = Except.ok uv →
      cnHeat_init cid cs http =
        (Except.ok
          { client_id := cid, client_secret := cs, base_endpoint := baseURL, token := tok,
            headers := [("Authorization", "Bearer " ++ pyStr tok)],
            sites := sv, predictions := pv, users := uv },
         [authRequest baseURL cid cs, initReq tok "sites", initReq tok "predictions",
          initReq tok "users"]) ∧
      (initReq tok "sites").headers = [("Authorization", "Bearer " ++ pyStr tok)] ∧
      (initReq tok "predictions").headers = [("Authorization", "Bearer " ++ pyStr tok)] ∧
      (initReq tok "users").headers = [("Authorization", "Bearer " ++ pyStr tok)]) ∧
    (∀ (r : Response) (fs : List (String × Json)) (v : Json),
      http (getReq c "antennas" [("frequency", a)]) = TransportResult.resp r →
      ¬(400 ≤ r.status ∧ r.status < 600) →
      r.body = Json.obj fs → fs.lookup "objects" = some v →
      (get_antennas a c http).1 = Except.ok v) ∧
    (∀ (r : Response) (fs : List (String × Json)) (v : Json),
      http (getReq c ("radios/" ++ a) []) = TransportResult.resp r →
      ¬(400 ≤ r.status ∧ r.status < 600) →
      r.body = Json.obj fs → fs.lookup "objects" = some v →
      (get_site_radios a c http).1 = Except.ok v) ∧
    (∀ (r : Response) (fs : List (String × Json)) (v : Json),
      http (getReq c "sites" []) = TransportResult.resp r →
      ¬(400 ≤ r.status ∧ r.status < 600) →
      r.body = Json.obj fs → fs.lookup "objects" = some v →
      (get_sites c http).1 = Except.ok v) ∧
    (∀ (r : Response) (fs : List (String × Json)) (v : Json),
      http (getReq c "predictions" []) = TransportResult.resp r →
      ¬(400 ≤ r.status ∧ r.status < 600) →
      r.body = Json.obj fs → fs.lookup "objects" = some v →
      (get_predictions c http).1 = Except.ok v) ∧
    (∀ (r : Response) (fs : List (String × Json)) (v : Json),
      http (getReq c "predictions/jobmanagement" []) = TransportResult.resp r →
      ¬(400 ≤ r.status ∧ r.status < 600) →
      r.body = Json.obj fs → fs.lookup "objects" = some v →
      (get_predictions_statuses c http).1 = Except.ok v) ∧
    (∀ (r : Response) (fs : List (String × Json)) (v : Json),
      http (getReq c "users" []) = TransportResult.resp r →
      ¬(400 ≤ r.status ∧ r.status < 600) →
      r.body = Json.obj fs → fs.lookup "objects" = some v →
      (get_users c http).1 = Except.ok v) ∧
    (∀ (r : Response) (fs : List (String × Json)) (v : Json),
      http (getReq c "subscriptions" []) = TransportResult.resp r →
      ¬(400 ≤ r.status ∧ r.status < 600) →
      r.body = Json.obj fs → fs.lookup "objects" = some v →
      (get_subscriptions c http).1 = Except.ok v) ∧
    (∀ r ∈ (get_credits c http).2.1, wellFormedReq c r) ∧
    (∀ r ∈ (get_antennas a c http).2.1, wellFormedReq c r) ∧
    (∀ r ∈ (get_site_radios a c http).2.1, wellFormedReq c r) ∧
    (∀ r ∈ (get_radio a c http).2.1, wellFormedReq c r) ∧
    (∀ r ∈ (delete_radio a c http).2.1, wellFormedReq c r) ∧
    (∀ r ∈ (create_radio a b d e f nm g i j k l m o c http).2.1, wellFormedReq c r) ∧
    (∀ r ∈ (update_radio a b d e f nm g i j k l m o c http).2.1, wellFormedReq c r) ∧
    (∀ r ∈ (get_sites c http).2.1, wellFormedReq c r) ∧
    (∀ r ∈ (rename_site a b c http).2.1, wellFormedReq c r) ∧
    (∀ r ∈ (create_site a b d e c http).2.1, wellFormedReq c r) ∧
    (∀ r ∈ (get_predictions c http).2.1, wellFormedReq c r) ∧
    (∀ r ∈ (create_prediction a ids c http).2.1, wellFormedReq c r) ∧
    (∀ r ∈ (get_predictions_statuses c http).2.1, wellFormedReq c r) ∧
    (∀ r ∈ (rename_prediction a b c http).2.1, wellFormedReq c r) ∧
    (∀ r ∈ (delete_prediction a c http).2.1, wellFormedReq c r) ∧
    (∀ r ∈ (get_users c http).2.1, wellFormedReq c r) ∧
    (∀ r ∈ (add_user a b c http).2.1, wellFormedReq c r) ∧
    (∀ r ∈ (delete_user a c http).2.1, wellFormedReq c r) ∧
    (∀ r ∈ (get_subscriptions c http).2.1, wellFormedReq c r) ∧
    (∀ r ∈ (renew_subscriptions a c http).2.1, wellFormedReq c r) ∧
    (∀ r ∈ (terminate_subscription a c http).2.1, wellFormedReq c r) := by
  refine ⟨?_, ?_, ?_, ?_, ?_, ?_, ?_, ?_, ?_, ?_, ?_, ?_, ?_, ?_, ?_, ?_, ?_, ?_, ?_,
    ?_, ?_, ?_, ?_, ?_, ?_, ?_, ?_, ?_, ?_⟩
  · intro rAuth rS rP rU tok sv pv uv hAuth hsAuth htok hS hsS hoS hP hsP hoP hU hsU hoU
    exact ⟨cnHeat_init_ok cid cs http rAuth rS rP rU tok sv pv uv hAuth hsAuth htok
      hS hsS hoS hP hsP hoP hU hsU hoU, rfl, rfl, rfl⟩
  · intro r fs v h hs hb hv
    have hm : get_antennas a c http =
        (objectsOf r.body, [getReq c "antennas" [("frequency", a)]], c) :=
      simpleMethod_ok _ objectsOf _ (fun bb mm => objectsOf_ne_reqExc bb mm) c http r h hs
    rw [hm, hb]
    exact objectsOf_found fs v hv
  · intro r fs v h hs hb hv
    rw [get_site_radios_ok a c http r h hs, hb]
    exact objectsOf_found fs v hv
  · intro r fs v h hs hb hv
    have hm : get_sites c http = (objectsOf r.body, [getReq c "sites" []], c) :=
      simpleMethod_ok _ objectsOf _ (fun bb mm => objectsOf_ne_reqExc bb mm) c http r h hs
    rw [hm, hb]
    exact objectsOf_found fs v hv
  · intro r fs v h hs hb hv
    have hm : get_predictions c http = (objectsOf r.body, [getReq c "predictions" []], c) :=
      simpleMethod_ok _ objectsOf _ (fun bb mm => objectsOf_ne_reqExc bb mm) c http r h hs
    rw [hm, hb]
    exact objectsOf_found fs v hv
  · intro r fs v h hs hb hv
    have hm : get_predictions_statuses c http =
        (objectsOf r.body, [getReq c "predictions/jobmanagement" []], c) :=
      simpleMethod_ok _ objectsOf _ (fun bb mm => objectsOf_ne_reqExc bb mm) c http r h hs
    rw [hm, hb]
    exact objectsOf_found fs v hv
  · intro r fs v h hs hb hv
    have hm : get_users c http = (objectsOf r.body, [getReq c "users" []], c) :=
      simpleMethod_ok _ objectsOf _ (fun bb mm => objectsOf_ne_reqExc bb mm) c http r h hs
    rw [hm, hb]
    exact objectsOf_found fs v hv
  · intro r fs v h hs hb hv
    have hm : get_subscriptions c http =
        (objectsOf r.body, [getReq c "subscriptions" []], c) :=
      simpleMethod_ok _ objectsOf _ (fun bb mm => objectsOf_ne_reqExc bb mm) c http r h hs
    rw [hm, hb]
    exact objectsOf_found fs v hv
  · exact simpleMethod_wellFormed _ _ _ (fun cl => ⟨rfl, Or.inl rfl⟩) c http
  · exact simpleMethod_wellFormed _ _ _ (fun cl => ⟨rfl, Or.inl rfl⟩) c http
  · exact get_site_radios_wellFormed a c http
  · exact simpleMethod_wellFormed _ _ _ (fun cl => ⟨rfl, Or.inl rfl⟩) c http
  · exact simpleMethod_wellFormed _ _ _ (fun cl => ⟨rfl, Or.inl rfl⟩) c http
  · exact create_radio_wellFormed a b d e f nm g i j k l m o c http
  · exact simpleMethod_wellFormed _ _ _ (fun cl => ⟨rfl, Or.inr ⟨_, rfl⟩⟩) c http
  · exact simpleMethod_wellFormed _ _ _ (fun cl => ⟨rfl, Or.inl rfl⟩) c http
  · exact simpleMethod_wellFormed _ _ _ (fun cl => ⟨rfl, Or.inr ⟨_, rfl⟩⟩) c http
  · exact simpleMethod_wellFormed _ _ _ (fun cl => ⟨rfl, Or.inr ⟨_, rfl⟩⟩) c http
  · exact simpleMethod_wellFormed _ _ _ (fun cl => ⟨rfl, Or.inl rfl⟩) c http
  · exact simpleMethod_wellFormed _ _ _ (fun cl => ⟨rfl, Or.inr ⟨_, rfl⟩⟩) c http
  · exact simpleMethod_wellFormed _ _ _ (fun cl => ⟨rfl, Or.inl rfl⟩) c http
  · exact simpleMethod_wellFormed _ _ _ (fun cl => ⟨rfl, Or.inr ⟨_, rfl⟩⟩) c http
  · exact simpleMethod_wellFormed _ _ _ (fun cl => ⟨rfl, Or.inl rfl⟩) c http
  · exact simpleMethod_wellFormed _ _ _ (fun cl => ⟨rfl, Or.inl rfl⟩) c http
  · exact simpleMethod_wellFormed _ _ _ (fun cl => ⟨rfl, Or.inr ⟨_, rfl⟩⟩) c http
  · exact simpleMethod_wellFormed _ _ _ (fun cl => ⟨rfl, Or.inr ⟨_, rfl⟩⟩) c http
  · exact simpleMethod_wellFormed _ _ _ (fun cl => ⟨rfl, Or.inl rfl⟩) c http
  · exact simpleMethod_wellFormed _ _ _ (fun cl => ⟨rfl, Or.inl rfl⟩) c http
  · exact simpleMethod_wellFormed _ _ _ (fun cl => ⟨rfl, Or.inl rfl⟩) c http

/-- Witness for claim C7 (amended): the bearer header of a concrete
construction, a concrete `objects` extraction, and a concrete method request
checked well-formed. -/
theorem claim_C7_witness :
    cnHeat_init "a" "b" httpGood =
      (Except.ok
        { client_id := "a", client_secret := "b", base_endpoint := baseURL,
          token := Json.str "T", headers := [("Authorization", "Bearer T")],
          sites := Json.arr [], predictions := Json.arr [], users := Json.arr [] },
       [authRequest baseURL "a" "b", initReq (Json.str "T") "sites",
        initReq (Json.str "T") "predictions", initReq (Json.str "T") "users"]) ∧
    (get_antennas "5.8" cDemo httpRadio).1 = Except.ok antennasDemo ∧
    wellFormedReq cDemo (getReq cDemo "credits" []) := by
  refine ⟨?_, ?_, ?_⟩
  · exact ((claim_C7_amended cDemo httpGood "a" "b" "x" "x" "x" "x" "x" "x" "x" "x" "x"
      "x" "x" "x" none []).1
      { status := 200, body := Json.obj [("access_token", Json.str "T")] }
      { status := 200, body := Json.obj [("objects", Json.arr [])] }
      { status := 200, body := Json.obj [("objects", Json.arr [])] }
      { status := 200, body := Json.obj [("objects", Json.arr [])] }
      (Json.str "T") (Json.arr []) (Json.arr []) (Json.arr [])
      rfl (by decide) rfl rfl (by decide) rfl rfl (by decide) rfl rfl (by decide) rfl).1
  · exact (claim_C7_amended cDemo httpRadio "a" "b" "5.8" "x" "x" "x" "x" "x" "x" "x"
      "x" "x" "x" "x" none []).2.1
      { status := 200, body := Json.obj [("objects", antennasDemo)] }
      [("objects", antennasDemo)] antennasDemo rfl (by decide) rfl rfl
  · exact (claim_C7_amended cDemo httpGood "a" "b" "x" "x" "x" "x" "x" "x" "x" "x" "x"
      "x" "x" "x" none []).2.2.2.2.2.2.2.2.1
      (getReq cDemo "credits" [])
      (by
        have ht : (get_credits cDemo httpGood).2.1 = [getReq cDemo "credits" []] := rfl
        rw [ht]
        exact List.mem_singleton.2 rfl)

end CnHeat
